import Mathlib

/-!
Verification of the trigger-cli program (src/trigger.py): a shallow
embedding of its selection-cache protocol, listing pipelines and command
dispatcher, with theorems checking the specification's claims.
-/

namespace Trigger

/-! ### A model of decoded JSON / Python values

`json.load` / `json.loads` turn JSON text into Python values: `null` becomes
`None`, objects become dicts (duplicate keys: the last occurrence wins),
arrays become lists.  We model the decoded values with one inductive type.
JSON numbers are modelled as integers (no claim involves fractional
numbers).  Object fields keep their textual order; equality on objects is
modelled structurally (field order sensitive), which agrees with Python
`==` on all values this program ever compares (strings and `None`). -/
inductive Json where
  | null
  | bool (b : Bool)
  | num (n : Int)
  | str (s : String)
  | arr (xs : List Json)
  | obj (fields : List (String × Json))

mutual

/-- Python `==` on decoded JSON values (structural; see comment on `Json`). -/
def Json.beq : Json → Json → Bool
  | .null, .null => true
  | .bool a, .bool b => a == b
  | .num a, .num b => a == b
  | .str a, .str b => a == b
  | .arr xs, .arr ys => Json.beqList xs ys
  | .obj fs, .obj gs => Json.beqFields fs gs
  | _, _ => false

def Json.beqList : List Json → List Json → Bool
  | [], [] => true
  | x :: xs, y :: ys => Json.beq x y && Json.beqList xs ys
  | _, _ => false

def Json.beqFields : List (String × Json) → List (String × Json) → Bool
  | [], [] => true
  | (k, v) :: fs, (l, w) :: gs => k == l && Json.beq v w && Json.beqFields fs gs
  | _, _ => false

end

/-- Result of running a fragment of Python code: a value, or an uncaught
exception identified by its class name. -/
inductive PyResult (α : Type) where
  | ok (val : α)
  | exn (name : String)

def PyResult.bind {α β : Type} : PyResult α → (α → PyResult β) → PyResult β
  | .ok v, f => f v
  | .exn e, _ => .exn e

instance : Monad PyResult where
  pure := PyResult.ok
  bind := PyResult.bind

/-! ### Python primitives used by trigger.py -/

/-- Python truthiness (`if x:`) of a decoded JSON value. -/
def pyTruthy : Json → Bool
  | .null => false
  | .bool b => b
  | .num n => n != 0
  | .str s => s != ""
  | .arr xs => !xs.isEmpty
  | .obj fs => !fs.isEmpty

/-- Truthiness of an optional string (Python `None` or `str`), as used for
the `search` argument and the environment variables. -/
def optTruthy : Option String → Bool
  | none => false
  | some s => s != ""

/-- Python list indexing `xs[i]` for an `int` index: non-negative indices
count from the front, negative indices count from the back; `none` models
an `IndexError`. -/
def pyIndex {α : Type} (xs : List α) (i : Int) : Option α :=
  if 0 ≤ i then xs[i.toNat]?
  else if (-i).toNat ≤ xs.length then xs[xs.length - (-i).toNat]? else none

/-- Python dict lookup with the duplicate-key behaviour of `json.load`:
the last occurrence of a key wins. -/
def pyLookup (fields : List (String × Json)) (key : String) : Option Json :=
  (fields.reverse.find? (fun p => p.1 == key)).map (fun p => p.2)

/-- Python subscript `j[i]` with an `int` index.  Indexing a dict decoded
from JSON with an `int` key raises `KeyError` (all its keys are strings);
indexing a scalar raises `TypeError`. -/
def pySubscriptInt (j : Json) (i : Int) : PyResult Json :=
  match j with
  | .arr xs =>
    match pyIndex xs i with
    | some x => .ok x
    | none => .exn "IndexError"
  | .str s =>
    match pyIndex s.data i with
    | some c => .ok (.str (String.mk [c]))
    | none => .exn "IndexError"
  | .obj _ => .exn "KeyError"
  | _ => .exn "TypeError"

/-- Python subscript `j[key]` with a string key. -/
def pySubscriptStr (j : Json) (key : String) : PyResult Json :=
  match j with
  | .obj fields =>
    match pyLookup fields key with
    | some v => .ok v
    | none => .exn "KeyError"
  | _ => .exn "TypeError"

/-- Python `d.get(key, dflt)`: raises `AttributeError` when the receiver is
not a dict. -/
def pyGet (j : Json) (key : String) (dflt : Json) : PyResult Json :=
  match j with
  | .obj fields => .ok ((pyLookup fields key).getD dflt)
  | _ => .exn "AttributeError"

/-! ### The selection caches (src/trigger.py lines 247-254 and 304-311)

A cache file (`~/.trigger_last_tasks.json` or `~/.trigger_last_runs.json`)
is either absent, holds text that `json.load` rejects, or holds a decoded
JSON value.  Writing `json.dump(entries)` to the file (mode "w") truncates
it first, so a save is a full overwrite; `json.load` of the written file
round-trips to the same decoded value. -/
inductive CacheFileState where
  | absent
  | unparsable (raw : String)
  | parsed (content : Json)

/-- `open(path, "w"); json.dump(entries, f)`: a full overwrite of whatever
the file held before. -/
def json_dump_save (entries : List Json) (_prev : CacheFileState) : CacheFileState :=
  .parsed (.arr entries)

/-- The body of the `try:` block shared by `get_cached_run` and
`get_cached_task`: open and decode the file, then `entries[number - 1][key]`. -/
def readCacheBody (file : CacheFileState) (key : String) (number : Int) : PyResult Json :=
  match file with
  | .absent => .exn "FileNotFoundError"
  | .unparsable _ => .exn "json.JSONDecodeError"
  | .parsed j => do
    let entry ← pySubscriptInt j (number - 1)
    pySubscriptStr entry key

/-- The exception classes named in the `except` clause of the two cache
readers: `(FileNotFoundError, IndexError, KeyError)`.  Note that
`json.JSONDecodeError` is not among them. -/
def CACHE_READ_CAUGHT : List String := ["FileNotFoundError", "IndexError", "KeyError"]

/-- The `except ...: return None` clause wrapped around a cache read. -/
def catchCacheExns : PyResult Json → PyResult Json
  | .ok v => .ok v
  | .exn e => if e ∈ CACHE_READ_CAUGHT then .ok .null else .exn e

/-- `get_cached_run(number)`: `runs[number - 1]["run_id"]` guarded by
`except (FileNotFoundError, IndexError, KeyError): return None`.
`Json.null` models the Python `None` returned on a caught exception. -/
def get_cached_run (file : CacheFileState) (number : Int) : PyResult Json :=
  catchCacheExns (readCacheBody file "run_id" number)

/-- `get_cached_task(number)`: `tasks[number - 1]["id"]` with the same
`except` clause as `get_cached_run`. -/
def get_cached_task (file : CacheFileState) (number : Int) : PyResult Json :=
  catchCacheExns (readCacheBody file "id" number)

example :
    get_cached_task (.parsed (.arr [.obj [("id", .str "a")], .obj [("id", .str "b")]])) 2
      = .ok (.str "b") := rfl

example :
    get_cached_task (.parsed (.arr [.obj [("id", .str "a")], .obj [("id", .str "b")]])) 0
      = .ok (.str "b") := rfl

example : get_cached_task .absent 1 = .ok .null := rfl

example : get_cached_run (.unparsable "oops") 1 = .exn "json.JSONDecodeError" := rfl

/-! ### String primitives -/

/-- The ASCII whitespace characters recognised by Python's `str.strip()`
and by `\s` in its regexes (the program's inputs are ASCII; the Unicode
extras of `\s` never match a character of an `id: '...'` declaration). -/
def isPySpace (c : Char) : Bool :=
  c = ' ' || c = '\t' || c = '\n' || c = '\r' || c = '\x0b' || c = '\x0c'

/-- Python `s.strip()`: drop leading and trailing whitespace. -/
def pyStrip (s : String) : String :=
  String.mk (((s.data.dropWhile isPySpace).reverse.dropWhile isPySpace).reverse)

/-- Python `s.lower()` (ASCII case folding, which is all the compared
identifiers and confirmation answers use). -/
def pyLower (s : String) : String := String.mk (s.data.map Char.toLower)

/-- Python `needle in hay` on strings: substring containment. -/
def pySubstr (needle hay : String) : Bool :=
  decide (List.IsInfix needle.data hay.data)

/-- Python `s.isdigit()` (restricted to ASCII digits, which is all
`int(...)` later accepts anyway). -/
def pyIsDigit (s : String) : Bool :=
  !s.isEmpty && s.data.all Char.isDigit

/-- Python `int(s)` on a string of ASCII digits. -/
def digitsToNat (s : String) : Nat :=
  s.data.foldl (fun acc c => acc * 10 + (c.toNat - '0'.toNat)) 0

example : pyIsDigit "42" = true := rfl
example : pyIsDigit "run" = false := rfl
example : pyIsDigit "" = false := rfl
example : digitsToNat "42" = 42 := rfl

/-! ### Confirmation prompt (src/trigger.py lines 68-74) -/

/-- What the user's answer to `input(...)` can be: a line of text,
end-of-input (`EOFError`), or an interrupt (`KeyboardInterrupt`). -/
inductive UserInput where
  | text (s : String)
  | eofInput
  | interrupt

/-- `confirm(message)`: `input(...).strip().lower() in ("y", "yes")`, with
`EOFError` and `KeyboardInterrupt` treated as a refusal. -/
def confirm (inp : UserInput) : Bool :=
  match inp with
  | .text s => pyLower (pyStrip s) == "y" || pyLower (pyStrip s) == "yes"
  | .eofInput => false
  | .interrupt => false

example : confirm (.text " Y ") = true := rfl
example : confirm (.text "yes") = true := rfl
example : confirm (.text "") = false := rfl
example : confirm (.text "no") = false := rfl
example : confirm .eofInput = false := rfl

/-! ### Local task scan (src/trigger.py lines 77-120)

`list_tasks_local` walks `./tasks` for `.ts` files and runs
`re.finditer(r"id:\s*['\"]([^'\"]+)['\"]", content)` over each file.  The
scanner below implements that regex search: at each position, match the
literal `id:`, a maximal run of whitespace, a quote, a maximal nonempty
run of non-quote characters (the captured group), and a closing quote;
`finditer` yields non-overlapping matches left to right, resuming after
each match. -/

def isQuoteChar (c : Char) : Bool := c = '\'' || c = '"'

/-- Try to match the pattern at the head of `l`; on success return the
captured identifier and the characters following the match. -/
def matchIdAt : List Char → Option (String × List Char)
  | 'i' :: 'd' :: ':' :: rest =>
    match rest.dropWhile isPySpace with
    | [] => none
    | q :: rest2 =>
      if isQuoteChar q then
        match rest2.takeWhile (fun c => !isQuoteChar c),
              rest2.dropWhile (fun c => !isQuoteChar c) with
        | [], _ => none
        | ident :: idents, q2 :: rest3 =>
          if isQuoteChar q2 then some (String.mk (ident :: idents), rest3) else none
        | _ :: _, [] => none
      else none
  | _ => none

theorem dropWhile_length_le (l : List Char) (p : Char → Bool) :
    (l.dropWhile p).length ≤ l.length :=
  (List.dropWhile_suffix p).sublist.length_le

theorem matchIdAt_length_lt {l after : List Char} {ident : String}
    (h : matchIdAt l = some (ident, after)) : after.length < l.length := by
  unfold matchIdAt at h
  split at h
  next rest =>
    split at h
    next heq2 => exact absurd h (by simp)
    next q rest2 heq2 =>
      split at h
      · split at h
        next => exact absurd h (by simp)
        next i1 irest q2 rest3 heq3 heq4 =>
          split at h
          · have h2 : rest2.length + 1 ≤ rest.length := by
              have := dropWhile_length_le rest isPySpace
              rw [heq2] at this
              simpa using this
            have h3 : rest3.length + 1 ≤ rest2.length := by
              have := dropWhile_length_le rest2 (fun c => !isQuoteChar c)
              rw [heq4] at this
              simpa using this
            have hafter : after = rest3 := by
              injection h with h'
              exact (congrArg Prod.snd h').symm
            subst hafter
            simp only [List.length_cons]
            omega
          · exact absurd h (by simp)
        next => exact absurd h (by simp)
      · exact absurd h (by simp)
  next => exact absurd h (by simp)

/-- `re.finditer` over the characters of a file: collect the captured
groups of all non-overlapping matches, left to right.  The `fuel`
argument only bounds the recursion so that it is structural (and hence
computable by the kernel): every step consumes at least one character
(`matchIdAt_length_lt`), so starting the fuel at the content length never
cuts the scan short. -/
def scanIds : Nat → List Char → List String
  | 0, _ => []
  | _ + 1, [] => []
  | fuel + 1, c :: rest =>
    match matchIdAt (c :: rest) with
    | some (ident, after) => ident :: scanIds fuel after
    | none => scanIds fuel rest

/-- All identifiers captured by the `id:` pattern in one file's content. -/
def findIdMatches (content : String) : List String :=
  scanIds content.data.length content.data

example : findIdMatches "export const a = task(\x7b id: 'report-weekly', run \x7d)"
    = ["report-weekly"] := by decide

example : findIdMatches "id: 'one' id:\"two\" id: '' id:三"
    = ["one", "two"] := by decide

/-- Python `tid.startswith("$")`: does the string begin with the template
sentinel character? -/
def startsWithDollar (s : String) : Bool :=
  match s.data with
  | [] => false
  | c :: _ => c = '$'

/-- The accumulation loop of `list_tasks_local`: for each captured
identifier in scan order, skip template strings (leading `$`), skip
identifiers that miss the search term, and append first occurrences only. -/
def collectIds (search : Option String) : List String → List String → List String
  | [], acc => acc
  | tid :: rest, acc =>
    if startsWithDollar tid then collectIds search rest acc
    else if optTruthy search && !pySubstr (pyLower (search.getD "")) (pyLower tid) then
      collectIds search rest acc
    else if tid ∈ acc then collectIds search rest acc
    else collectIds search rest (acc ++ [tid])

/-- Lexicographic comparison of character lists by code point: the order
Python's `sorted` uses on strings. -/
def charsLe : List Char → List Char → Bool
  | [], _ => true
  | _ :: _, [] => false
  | a :: as, b :: bs => if a < b then true else if b < a then false else charsLe as bs

/-- Python `a <= b` on strings (lexicographic by code point). -/
def pyStrLe (a b : String) : Bool := charsLe a.data b.data

/-- `sorted(task_ids)`: Python sorts strings lexicographically by code
point; the entries are pairwise distinct here, so insertion sort yields
the same list. -/
def pySorted (l : List String) : List String :=
  List.insertionSort (fun a b => pyStrLe a b = true) l

/-- The identifier list computed by `list_tasks_local` from the contents
of the scanned `.ts` files (in walk order), before it is wrapped into
`{"id": tid}` entries: extract, filter, de-duplicate, sort. -/
def list_tasks_local_ids (search : Option String) (files : List String) : List String :=
  pySorted (collectIds search (files.flatMap findIdMatches) [])

/-- `tasks = [{"id": tid} for tid in sorted(task_ids)]`. -/
def list_tasks_local_entries (search : Option String) (files : List String) : List Json :=
  (list_tasks_local_ids search files).map (fun tid => .obj [("id", .str tid)])

example :
    list_tasks_local_ids none ["id: '$campaignId'\nid: 'report-weekly'"]
      = ["report-weekly"] := by decide

example :
    list_tasks_local_ids none ["id: 'report-$campaignId'"]
      = ["report-$campaignId"] := by decide

example :
    list_tasks_local_ids none ["id: 'b'\nid: 'a'", "id: 'b'"]
      = ["a", "b"] := by decide

example :
    list_tasks_local_ids (some "Send") ["id: 'sendEmail'\nid: 'archiveUser'\nid: 'sendSms'"]
      = ["sendEmail", "sendSms"] := by decide

/-! ### Remote listing loops (src/trigger.py lines 123-147, 169-194, 200-217) -/

/-- Python `s.lower()` on a decoded JSON value: `AttributeError` unless it
is a string. -/
def pyLowerJson : Json → PyResult String
  | .str s => .ok (pyLower s)
  | _ => .exn "AttributeError"

/-- Python slice `j[:n]`: works on strings and lists, `TypeError` otherwise. -/
def pySliceTo (j : Json) (n : Nat) : PyResult Json :=
  match j with
  | .str s => .ok (.str (String.mk (s.data.take n)))
  | .arr xs => .ok (.arr (xs.take n))
  | _ => .exn "TypeError"

/-- Python `for x in j`: iterating a decoded JSON value (arrays yield
elements; strings yield one-character strings; dicts yield their keys). -/
def pyIterList : Json → PyResult (List Json)
  | .arr xs => .ok xs
  | .str s => .ok (s.data.map (fun c => .str (String.mk [c])))
  | .obj fs => .ok (fs.map (fun p => .str p.1))
  | _ => .exn "TypeError"

/-- One entry of the remote task listing:
`{"id": task_id, "status": run.get("status"), "updated": run.get("updatedAt", "")[:10]}`. -/
def mkTaskEntry (task_id status updated : Json) : Json :=
  .obj [("id", task_id), ("status", status), ("updated", updated)]

/-- The `for run in runs:` loop of `list_tasks`: keep the first run of
each truthy `taskIdentifier` (optionally filtered by a case-insensitive
substring search), recording that run's status and date-truncated
`updatedAt`. -/
def buildTasksGo (search : Option String) : List Json → List Json → List Json → PyResult (List Json)
  | [], _seen, tasks => .ok tasks
  | run :: rest, seen, tasks => do
    let task_id ← pyGet run "taskIdentifier" .null
    if !pyTruthy task_id || seen.any (Json.beq task_id) then
      buildTasksGo search rest seen tasks
    else do
      let skip ←
        if optTruthy search then do
          let tl ← pyLowerJson task_id
          pure (!pySubstr (pyLower (search.getD "")) tl)
        else pure false
      if skip then buildTasksGo search rest seen tasks
      else do
        let status ← pyGet run "status" .null
        let upd0 ← pyGet run "updatedAt" (.str "")
        let updated ← pySliceTo upd0 10
        buildTasksGo search rest (seen ++ [task_id]) (tasks ++ [mkTaskEntry task_id status updated])

def buildTasksFromRuns (search : Option String) (runs : List Json) : PyResult (List Json) :=
  buildTasksGo search runs [] []

/-- The tuple `("COMPLETED", "FAILED", "CANCELED")` of terminal run
statuses that `runs --active` filters out. -/
def TERMINAL_STATUSES : List Json := [.str "COMPLETED", .str "FAILED", .str "CANCELED"]

/-- Python `st in ("COMPLETED", "FAILED", "CANCELED")`. -/
def isTerminalStatus (st : Json) : Bool := TERMINAL_STATUSES.any (Json.beq st)

/-- The comprehension
`[r for r in runs if r.get("status") not in ("COMPLETED", "FAILED", "CANCELED")]`. -/
def activeFilterLoop : List Json → PyResult (List Json)
  | [] => .ok []
  | r :: rest => do
    let st ← pyGet r "status" .null
    let tail ← activeFilterLoop rest
    if isTerminalStatus st then pure tail else pure (r :: tail)

/-- One entry of the run selection cache:
`{"run_id": r.get("id"), "task_id": r.get("taskIdentifier"), "status": r.get("status")}`. -/
def mkRunCacheEntry (rid tid st : Json) : Json :=
  .obj [("run_id", rid), ("task_id", tid), ("status", st)]

/-- The comprehension building `runs_cache` in `list_runs`. -/
def runsCacheLoop : List Json → PyResult (List Json)
  | [] => .ok []
  | r :: rest => do
    let rid ← pyGet r "id" .null
    let tid ← pyGet r "taskIdentifier" .null
    let st ← pyGet r "status" .null
    let tail ← runsCacheLoop rest
    pure (mkRunCacheEntry rid tid st :: tail)

/-- Python `s.replace("T", " ")` on a decoded JSON value (`AttributeError`
unless it is a string; the needle is a single character). -/
def pyReplaceTJson : Json → PyResult String
  | .str s => .ok (String.mk (s.data.map (fun c => if c = 'T' then ' ' else c)))
  | _ => .exn "AttributeError"

/-- The `for i, s in enumerate(schedules, 1):` loop of `list_schedules`:
besides building the display line (whose intermediate expressions can
raise), it appends `{"id": s.get("task"), "schedule_id": s.get("id")}` to
the list that is then saved to the task selection cache. -/
def schedulesLoop : List Json → PyResult (List Json)
  | [] => .ok []
  | s :: rest => do
    let task_id ← pyGet s "task" .null
    let gen ← pyGet s "generator" (.obj [])
    let _cron ← pyGet gen "expression" (.str "")
    let _active ← pyGet s "active" .null
    let nr0 ← pyGet s "nextRun" (.str "")
    let nr1 ← pySliceTo nr0 16
    let _next_run ← pyReplaceTJson nr1
    let sid ← pyGet s "id" .null
    let tail ← schedulesLoop rest
    pure (.obj [("id", task_id), ("schedule_id", sid)] :: tail)

example :
    buildTasksFromRuns none
      [.obj [("taskIdentifier", .str "a"), ("status", .str "COMPLETED"),
             ("updatedAt", .str "2024-01-02T10:00:00Z")],
       .obj [("taskIdentifier", .str "a"), ("status", .str "FAILED")],
       .obj [("taskIdentifier", .null)],
       .obj [("taskIdentifier", .str "b")]]
      = .ok [mkTaskEntry (.str "a") (.str "COMPLETED") (.str "2024-01-02"),
             mkTaskEntry (.str "b") .null (.str "")] := rfl

example :
    activeFilterLoop
      [.obj [("status", .str "COMPLETED")], .obj [("status", .str "EXECUTING")],
       .obj [("status", .str "CANCELED")], .obj []]
      = .ok [.obj [("status", .str "EXECUTING")], .obj []] := rfl

/-! ### The command dispatcher (src/trigger.py lines 20-27, 257-301, 314-393)

Effects are made explicit: HTTP requests are recorded as `NetCall`s and
answered by an oracle `World.respond`; the two cache files enter as the
initial `World` state and leave in the `Outcome`.  `printed` tracks the
messages the claims are about (confirmation aborts, error messages,
headers); the per-item numbered display lines and the full usage block are
not tracked, since no claim concerns them and the spec scopes output
formatting out (spec section 1).  `crashed` records an uncaught exception
(the interpreter then exits with status 1 after a traceback). -/

def BASE_URL : String := "https://api.trigger.dev/api/v1"

def BASE_URL_V2 : String := "https://api.trigger.dev/api/v2"

/-- The two environment-sourced configuration values. -/
structure Env where
  apiKey : Option String
  projectId : Option String

/-- One HTTP request: method, URL and query parameters.  Request bodies
are not tracked (no claim concerns them). -/
structure NetCall where
  isPost : Bool
  url : String
  params : List (String × Nat)
deriving DecidableEq

/-- What the remote API answers: a decoded JSON body on success, or a
non-success status code (on which `raise_for_status` raises `HTTPError`). -/
inductive HttpResp where
  | success (body : Json)
  | failure (statusCode : Nat)

/-- Everything outside the program that one invocation can observe. -/
structure World where
  respond : NetCall → HttpResp
  hasTasksDir : Bool
  localFiles : List String
  answer : UserInput
  parsePayloadArg : String → Option Json
  taskCache0 : CacheFileState
  runCache0 : CacheFileState

/-- The observable result of one invocation. -/
structure Outcome where
  exitCode : Nat
  calls : List NetCall
  printed : List String
  opened : List String
  taskCache : CacheFileState
  runCache : CacheFileState
  crashed : Option String

/-- Python `str(...)` of a decoded JSON value, as interpolated into
f-strings and URLs.  The rendering of composite values is abridged (they
are display-only and never reach a claim). -/
def pyFStr : Json → String
  | .null => "None"
  | .bool true => "True"
  | .bool false => "False"
  | .num n => toString n
  | .str s => s
  | .arr _ => "<list>"
  | .obj _ => "<dict>"

def run_url (projectId run_id : String) : String :=
  "https://cloud.trigger.dev/projects/v3/" ++ projectId ++ "/runs/" ++ run_id

/-- `run_task(task_id, payload, auto_open, skip_confirm)`.  The payload is
accepted but not tracked (request bodies are outside every claim). -/
def run_task (env : Env) (w : World) (task_id : Json) (_payload : Option Json)
    (auto_open skip_confirm : Bool) : Outcome :=
  if !skip_confirm && !confirm w.answer then
    { exitCode := 0, calls := [], printed := ["Cancelled"], opened := [],
      taskCache := w.taskCache0, runCache := w.runCache0, crashed := none }
  else
    let call : NetCall :=
      { isPost := true, url := BASE_URL ++ "/tasks/" ++ pyFStr task_id ++ "/trigger", params := [] }
    match w.respond call with
    | .failure code =>
      { exitCode := 1, calls := [call], printed := ["❌ API error: " ++ toString code],
        opened := [], taskCache := w.taskCache0, runCache := w.runCache0, crashed := none }
    | .success body =>
      match pyGet body "id" .null with
      | .exn e =>
        { exitCode := 1, calls := [call], printed := [], opened := [],
          taskCache := w.taskCache0, runCache := w.runCache0, crashed := some e }
      | .ok run_id =>
        let base : Outcome :=
          { exitCode := 0, calls := [call], printed := ["✔️ Triggered " ++ pyFStr task_id],
            opened := [], taskCache := w.taskCache0, runCache := w.runCache0, crashed := none }
        if optTruthy env.projectId && pyTruthy run_id then
          let url := run_url (env.projectId.getD "") (pyFStr run_id)
          { base with printed := base.printed ++ ["   " ++ url],
                      opened := if auto_open then [url] else [] }
        else base

/-- `cancel_run(run_id, skip_confirm)`. -/
def cancel_run (env : Env) (w : World) (run_id : Json) (skip_confirm : Bool) : Outcome :=
  if !skip_confirm && !confirm w.answer then
    { exitCode := 0, calls := [], printed := ["Cancelled"], opened := [],
      taskCache := w.taskCache0, runCache := w.runCache0, crashed := none }
  else
    let call : NetCall :=
      { isPost := true, url := BASE_URL_V2 ++ "/runs/" ++ pyFStr run_id ++ "/cancel", params := [] }
    match w.respond call with
    | .failure code =>
      { exitCode := 1, calls := [call], printed := ["❌ API error: " ++ toString code],
        opened := [], taskCache := w.taskCache0, runCache := w.runCache0, crashed := none }
    | .success _body =>
      let base : Outcome :=
        { exitCode := 0, calls := [call], printed := ["✔️ Cancelled " ++ pyFStr run_id],
          opened := [], taskCache := w.taskCache0, runCache := w.runCache0, crashed := none }
      if optTruthy env.projectId then
        { base with printed := base.printed ++
            ["   " ++ run_url (env.projectId.getD "") (pyFStr run_id)] }
      else base

/-- The request issued by `list_tasks`: `GET {BASE_URL}/runs` with
`params={"page[size]": 100}`. -/
def listTasksCall : NetCall :=
  { isPost := false, url := BASE_URL ++ "/runs", params := [("page[size]", 100)] }

/-- The request issued by `list_runs`: `GET {BASE_URL}/runs` with
`params={"page[size]": 50}` — identical whether or not `--active` was
given; there is no status parameter. -/
def listRunsCall : NetCall :=
  { isPost := false, url := BASE_URL ++ "/runs", params := [("page[size]", 50)] }

/-- The request issued by `list_schedules`: `GET {BASE_URL}/schedules`. -/
def listSchedulesCall : NetCall :=
  { isPost := false, url := BASE_URL ++ "/schedules", params := [] }

/-- `list_tasks(search)`: fetch recent runs, derive the task list, save it
to the task selection cache, display it. -/
def list_tasks_outcome (resp : HttpResp) (search : Option String)
    (tc rc : CacheFileState) : Outcome :=
  match resp with
  | .failure code =>
    { exitCode := 1, calls := [listTasksCall], printed := ["❌ API error: " ++ toString code],
      opened := [], taskCache := tc, runCache := rc, crashed := none }
  | .success body =>
    match (do
        let data ← pyGet body "data" (.arr [])
        let runs ← pyIterList data
        buildTasksFromRuns search runs) with
    | .exn e =>
      { exitCode := 1, calls := [listTasksCall], printed := [], opened := [],
        taskCache := tc, runCache := rc, crashed := some e }
    | .ok tasks =>
      let header :=
        if optTruthy search then "Tasks matching '" ++ search.getD "" ++ "':" else "Tasks:"
      { exitCode := 0, calls := [listTasksCall],
        printed := [header] ++ (if tasks.isEmpty then ["  (none found)"] else []),
        opened := [], taskCache := json_dump_save tasks tc, runCache := rc, crashed := none }

/-- `list_tasks_local(search)`: scan `./tasks`, save the result to the
task selection cache — except that a missing `./tasks` directory returns
`[]` early, before the cache write. -/
def list_tasks_local_outcome (hasDir : Bool) (files : List String)
    (search : Option String) (tc rc : CacheFileState) : Outcome :=
  if !hasDir then
    { exitCode := 0, calls := [], printed := ["❌ No ./tasks folder found"], opened := [],
      taskCache := tc, runCache := rc, crashed := none }
  else
    let tasks := list_tasks_local_entries search files
    let header :=
      if optTruthy search then "Tasks matching '" ++ search.getD "" ++ "' (local):"
      else "Tasks (local):"
    { exitCode := 0, calls := [],
      printed := [header] ++ (if tasks.isEmpty then ["  (none found)"] else []),
      opened := [], taskCache := json_dump_save tasks tc, runCache := rc, crashed := none }

/-- `list_schedules()`: fetch schedules, display them, and save
`{"id", "schedule_id"}` entries to the *task* selection cache. -/
def list_schedules_outcome (resp : HttpResp) (tc rc : CacheFileState) : Outcome :=
  match resp with
  | .failure code =>
    { exitCode := 1, calls := [listSchedulesCall], printed := ["❌ API error: " ++ toString code],
      opened := [], taskCache := tc, runCache := rc, crashed := none }
  | .success body =>
    match pyGet body "data" (.arr []) with
    | .exn e =>
      { exitCode := 1, calls := [listSchedulesCall], printed := [], opened := [],
        taskCache := tc, runCache := rc, crashed := some e }
    | .ok data =>
      match (do
          let scheds ← pyIterList data
          schedulesLoop scheds) with
      | .exn e =>
        { exitCode := 1, calls := [listSchedulesCall], printed := ["Scheduled tasks:"],
          opened := [], taskCache := tc, runCache := rc, crashed := some e }
      | .ok entries =>
        { exitCode := 0, calls := [listSchedulesCall], printed := ["Scheduled tasks:"],
          opened := [], taskCache := json_dump_save entries tc, runCache := rc, crashed := none }

/-- `list_runs(active_only)`: fetch recent runs, filter client-side when
`--active`, save `{"run_id", "task_id", "status"}` entries to the run
selection cache, display.  The saved entries are derived from the
displayed (filtered) list. -/
def list_runs_outcome (resp : HttpResp) (active_only : Bool)
    (tc rc : CacheFileState) : Outcome :=
  match resp with
  | .failure code =>
    { exitCode := 1, calls := [listRunsCall], printed := ["❌ API error: " ++ toString code],
      opened := [], taskCache := tc, runCache := rc, crashed := none }
  | .success body =>
    match (do
        let data ← pyGet body "data" (.arr [])
        let runs0 ← pyIterList data
        let runs ← if active_only then activeFilterLoop runs0 else pure runs0
        let cacheEntries ← runsCacheLoop runs
        pure (runs, cacheEntries)) with
    | .exn e =>
      { exitCode := 1, calls := [listRunsCall], printed := [], opened := [],
        taskCache := tc, runCache := rc, crashed := some e }
    | .ok (runs, cacheEntries) =>
      let header := if active_only then "In-progress runs:" else "Recent runs:"
      { exitCode := 0, calls := [listRunsCall],
        printed := [header] ++ (if runs.isEmpty then ["  (none found)"] else []),
        opened := [], taskCache := tc, runCache := json_dump_save cacheEntries rc,
        crashed := none }

/-- The first line of the fixed usage block `print_help` prints (the rest
of the block is display-only and not tracked). -/
def usageText : String := "trigger - Trigger.dev task runner"

/-- An outcome that only prints and exits. -/
def printExit (w : World) (lines : List String) (code : Nat) : Outcome :=
  { exitCode := code, calls := [], printed := lines, opened := [],
    taskCache := w.taskCache0, runCache := w.runCache0, crashed := none }

/-- An outcome for an uncaught exception raised before any request. -/
def crashOutcome (w : World) (e : String) : Outcome :=
  { exitCode := 1, calls := [], printed := [], opened := [],
    taskCache := w.taskCache0, runCache := w.runCache0, crashed := some e }

/-- `main()` under the `__main__` wrapper: parse `sys.argv[1:]`, dispatch,
and map `HTTPError` to "❌ API error" with exit code 1. -/
def mainRun (args : List String) (env : Env) (w : World) : Outcome :=
  if args.contains "-h" || args.contains "--help" then
    printExit w [usageText] 0
  else if !optTruthy env.apiKey then
    printExit w ["❌ TRIGGER_SECRET_KEY not set"] 1
  else
    let skip_confirm := args.contains "-y"
    let auto_open := args.contains "--open"
    let argsF := args.filter (fun a => !(a == "-y" || a == "--open"))
    match argsF with
    | [] => list_tasks_outcome (w.respond listTasksCall) none w.taskCache0 w.runCache0
    | arg0 :: restArgs =>
      if arg0 == "list" then
        if argsF.contains "--local" then
          let args2 := argsF.filter (fun a => a != "--local")
          list_tasks_local_outcome w.hasTasksDir w.localFiles args2[1]? w.taskCache0 w.runCache0
        else
          list_tasks_outcome (w.respond listTasksCall) argsF[1]? w.taskCache0 w.runCache0
      else if arg0 == "schedules" then
        list_schedules_outcome (w.respond listSchedulesCall) w.taskCache0 w.runCache0
      else if arg0 == "runs" then
        list_runs_outcome (w.respond listRunsCall) (argsF.contains "--active")
          w.taskCache0 w.runCache0
      else if arg0 == "cancel" then
        match restArgs[0]? with
        | none => printExit w ["Usage: trigger cancel <run_id|number>"] 1
        | some target =>
          if pyIsDigit target then
            match get_cached_run w.runCache0 (digitsToNat target) with
            | .exn e => crashOutcome w e
            | .ok v =>
              if !pyTruthy v then printExit w ["❌ Run 'trigger runs' first"] 1
              else cancel_run env w v skip_confirm
          else cancel_run env w (.str target) skip_confirm
      else if arg0 == "run" then
        match restArgs[0]? with
        | none => printExit w ["Usage: trigger run <task_id>"] 1
        | some task_id =>
          if argsF.contains "-p" then
            let p_idx := argsF.findIdx (fun a => a == "-p")
            match argsF[p_idx + 1]? with
            | none => crashOutcome w "IndexError"
            | some pstr =>
              match w.parsePayloadArg pstr with
              | none => crashOutcome w "json.JSONDecodeError"
              | some payload =>
                run_task env w (.str task_id) (some payload) auto_open skip_confirm
          else run_task env w (.str task_id) none auto_open skip_confirm
      else if pyIsDigit arg0 then
        match get_cached_task w.taskCache0 (digitsToNat arg0) with
        | .exn e => crashOutcome w e
        | .ok v =>
          if !pyTruthy v then printExit w ["❌ Run 'trigger list' first"] 1
          else run_task env w v none auto_open skip_confirm
      else run_task env w (.str arg0) none auto_open skip_confirm

/-! ### Concrete fixtures used in examples, counterexamples and witnesses -/

def envOk : Env := { apiKey := some "tr_dev_key", projectId := none }

def envNoKey : Env := { apiKey := none, projectId := none }

/-- A remote API that answers every request successfully with a body
offering both an `id` (for trigger responses) and an empty `data` array
(for listing responses). -/
def respOk : NetCall → HttpResp := fun _ =>
  .success (.obj [("id", .str "run_123"), ("data", .arr [])])

/-- A task selection cache holding three entries. -/
def taskCacheABC : CacheFileState :=
  .parsed (.arr [.obj [("id", .str "alpha")], .obj [("id", .str "beta")],
                 .obj [("id", .str "gamma")]])

def worldBase : World :=
  { respond := respOk, hasTasksDir := true, localFiles := [], answer := .text "n",
    parsePayloadArg := fun _ => none, taskCache0 := taskCacheABC, runCache0 := .absent }

example :
    (mainRun ["run", "3", "-y"] envOk worldBase).calls
      = [{ isPost := true, url := "https://api.trigger.dev/api/v1/tasks/3/trigger",
           params := [] }] := rfl

example :
    (mainRun ["3", "-y"] envOk worldBase).calls
      = [{ isPost := true, url := "https://api.trigger.dev/api/v1/tasks/gamma/trigger",
           params := [] }] := rfl

example : (mainRun ["runs"] envNoKey worldBase).exitCode = 1 := rfl

example : (mainRun ["runs", "-h"] envNoKey worldBase).exitCode = 0 := rfl

example :
    (mainRun ["cancel", "run_abc"] envOk worldBase).printed = ["Cancelled"] := rfl

/-! ### Sequences of listing commands (for the cache invariant)

`ListingOp` is one execution of a listing command together with the
response (or local directory contents) it observed; `applyListing` applies
its effect on the two cache files, exactly as the corresponding
`list_*` function does. -/

inductive ListingOp where
  | remoteTasks (search : Option String) (resp : HttpResp)
  | localTasks (search : Option String) (hasDir : Bool) (files : List String)
  | schedulesOp (resp : HttpResp)
  | runsOp (activeOnly : Bool) (resp : HttpResp)

structure CachePair where
  taskCache : CacheFileState
  runCache : CacheFileState

def applyListing (s : CachePair) : ListingOp → CachePair
  | .remoteTasks search resp =>
    let o := list_tasks_outcome resp search s.taskCache s.runCache
    ⟨o.taskCache, o.runCache⟩
  | .localTasks search hasDir files =>
    let o := list_tasks_local_outcome hasDir files search s.taskCache s.runCache
    ⟨o.taskCache, o.runCache⟩
  | .schedulesOp resp =>
    let o := list_schedules_outcome resp s.taskCache s.runCache
    ⟨o.taskCache, o.runCache⟩
  | .runsOp activeOnly resp =>
    let o := list_runs_outcome resp activeOnly s.taskCache s.runCache
    ⟨o.taskCache, o.runCache⟩

def applyListings (s : CachePair) (ops : List ListingOp) : CachePair :=
  ops.foldl applyListing s

/-- The list of entries a listing operation saves to the *task* selection
cache, if it reaches its save: `none` for the runs listing, for a local
scan without a `./tasks` directory, and for a listing aborted by an HTTP
error or an exception before the write. -/
def taskSave : ListingOp → Option (List Json)
  | .remoteTasks search resp =>
    match resp with
    | .failure _ => none
    | .success body =>
      match (do
          let data ← pyGet body "data" (.arr [])
          let runs ← pyIterList data
          buildTasksFromRuns search runs) with
      | .exn _ => none
      | .ok tasks => some tasks
  | .localTasks search hasDir files =>
    if hasDir then some (list_tasks_local_entries search files) else none
  | .schedulesOp resp =>
    match resp with
    | .failure _ => none
    | .success body =>
      match pyGet body "data" (.arr []) with
      | .exn _ => none
      | .ok data =>
        match (do
            let scheds ← pyIterList data
            schedulesLoop scheds) with
        | .exn _ => none
        | .ok entries => some entries
  | .runsOp _ _ => none

/-- The list of entries a listing operation saves to the *run* selection
cache, if any: only the runs listing writes it. -/
def runSave : ListingOp → Option (List Json)
  | .runsOp activeOnly resp =>
    match resp with
    | .failure _ => none
    | .success body =>
      match (do
          let data ← pyGet body "data" (.arr [])
          let runs0 ← pyIterList data
          let runs ← if activeOnly then activeFilterLoop runs0 else pure runs0
          let cacheEntries ← runsCacheLoop runs
          pure (runs, cacheEntries)) with
      | .exn _ => none
      | .ok (_, cacheEntries) => some cacheEntries
  | _ => none

/-- Fold a sequence of performed saves over an initial cache state: the
cache ends up holding the last saved list, or stays as it began. -/
def lastSaved (init : CacheFileState) (ws : List (List Json)) : CacheFileState :=
  match ws with
  | [] => init
  | ts :: rest => lastSaved (.parsed (.arr ts)) rest

theorem applyListing_taskCache (s : CachePair) (op : ListingOp) :
    (applyListing s op).taskCache =
      match taskSave op with
      | some ts => .parsed (.arr ts)
      | none => s.taskCache := by
  cases op with
  | remoteTasks search resp =>
    cases resp with
    | failure code => rfl
    | success body =>
      simp only [applyListing, list_tasks_outcome, taskSave]
      cases hx : (do
          let data ← pyGet body "data" (.arr [])
          let runs ← pyIterList data
          buildTasksFromRuns search runs) with
      | exn e => simp [hx]
      | ok tasks => simp [hx, json_dump_save]
  | localTasks search hasDir files =>
    cases hasDir with
    | false => rfl
    | true => rfl
  | schedulesOp resp =>
    cases resp with
    | failure code => rfl
    | success body =>
      simp only [applyListing, list_schedules_outcome, taskSave]
      cases hd : pyGet body "data" (.arr []) with
      | exn e => simp [hd]
      | ok data =>
        simp only [hd]
        cases hx : (do
            let scheds ← pyIterList data
            schedulesLoop scheds) with
        | exn e => simp [hx]
        | ok entries => simp [hx, json_dump_save]
  | runsOp activeOnly resp =>
    cases resp with
    | failure code => rfl
    | success body =>
      simp only [applyListing, list_runs_outcome, taskSave]
      cases hx : (do
          let data ← pyGet body "data" (.arr [])
          let runs0 ← pyIterList data
          let runs ← if activeOnly then activeFilterLoop runs0 else pure runs0
          let cacheEntries ← runsCacheLoop runs
          pure (runs, cacheEntries)) with
      | exn e => simp [hx]
      | ok p => simp [hx]

theorem applyListing_runCache (s : CachePair) (op : ListingOp) :
    (applyListing s op).runCache =
      match runSave op with
      | some ts => .parsed (.arr ts)
      | none => s.runCache := by
  cases op with
  | remoteTasks search resp =>
    cases resp with
    | failure code => rfl
    | success body =>
      simp only [applyListing, list_tasks_outcome, runSave]
      cases hx : (do
          let data ← pyGet body "data" (.arr [])
          let runs ← pyIterList data
          buildTasksFromRuns search runs) with
      | exn e => simp [hx]
      | ok tasks => simp [hx]
  | localTasks search hasDir files =>
    cases hasDir with
    | false => rfl
    | true => rfl
  | schedulesOp resp =>
    cases resp with
    | failure code => rfl
    | success body =>
      simp only [applyListing, list_schedules_outcome, runSave]
      cases hd : pyGet body "data" (.arr []) with
      | exn e => simp [hd]
      | ok data =>
        simp only [hd]
        cases hx : (do
            let scheds ← pyIterList data
            schedulesLoop scheds) with
        | exn e => simp [hx]
        | ok entries => simp [hx]
  | runsOp activeOnly resp =>
    cases resp with
    | failure code => rfl
    | success body =>
      simp only [applyListing, list_runs_outcome, runSave]
      cases hx : (do
          let data ← pyGet body "data" (.arr [])
          let runs0 ← pyIterList data
          let runs ← if activeOnly then activeFilterLoop runs0 else pure runs0
          let cacheEntries ← runsCacheLoop runs
          pure (runs, cacheEntries)) with
      | exn e => simp [hx]
      | ok p => cases p with
        | mk runs cacheEntries => simp [hx, json_dump_save]

/-- The list a task-kind listing command *produces* (returns to its
caller and displays): for `list --local` without a `./tasks` directory
this is `[]` — returned by the early `return []` — although nothing is
saved; in every other case it coincides with what is saved (for
`schedules`, the saved selection entries correspond one-to-one to the
displayed schedule list). -/
def producedTaskList : ListingOp → Option (List Json)
  | .localTasks search hasDir files =>
    some (if hasDir then list_tasks_local_entries search files else [])
  | op => taskSave op

def opsC3 : List ListingOp :=
  [.remoteTasks none (.success (.obj [("data",
      .arr [.obj [("taskIdentifier", .str "alpha")]])])),
   .localTasks none false []]

/-- C3, counterexample: after a remote task listing that cached one entry,
a `list --local` invocation finding no `./tasks` directory is the most
recent task-kind listing command and produces the empty list, yet the task
cache still holds the earlier entry — it does not reflect the most recent
listing command of its kind, refuting the claim as stated. -/
theorem C3_counterexample :
    producedTaskList (ListingOp.localTasks none false []) = some []
    ∧ (applyListings ⟨.absent, .absent⟩ opsC3).taskCache
        = .parsed (.arr [mkTaskEntry (.str "alpha") .null (.str "")])
    ∧ (applyListings ⟨.absent, .absent⟩ opsC3).taskCache ≠ .parsed (.arr []) :=
  ⟨rfl, rfl, by intro h; injection h with h1; injection h1 with h2; exact absurd h2 (by simp)⟩

/-- C3, amended: the task and run selection caches are independent, and
after any sequence of listing commands each cache holds exactly the last
list *saved* by a listing command of its kind (every save being a full
overwrite, never a merge or append): only the task listings (`list`,
`list --local` with an existing `./tasks` directory, `schedules`, and the
bare invocation) write the task cache and only the runs listing writes the
run cache, while a `list --local` without a `./tasks` directory and a
listing aborted by an HTTP error or decode exception leave the caches
untouched. -/
theorem C3_cache_overwrite_invariant (s0 : CachePair) (ops : List ListingOp) :
    (applyListings s0 ops).taskCache = lastSaved s0.taskCache (ops.filterMap taskSave)
    ∧ (applyListings s0 ops).runCache = lastSaved s0.runCache (ops.filterMap runSave) := by
  induction ops generalizing s0 with
  | nil => exact ⟨rfl, rfl⟩
  | cons op ops ih =>
    have ht := applyListing_taskCache s0 op
    have hr := applyListing_runCache s0 op
    refine ⟨?_, ?_⟩
    · show (applyListings (applyListing s0 op) ops).taskCache = _
      rw [(ih (applyListing s0 op)).1, List.filterMap_cons]
      cases hts : taskSave op with
      | none => rw [hts] at ht; simp only [ht]
      | some ts => rw [hts] at ht; simp only [ht, lastSaved]
    · show (applyListings (applyListing s0 op) ops).runCache = _
      rw [(ih (applyListing s0 op)).2, List.filterMap_cons]
      cases hrs : runSave op with
      | none => rw [hrs] at hr; simp only [hr]
      | some ts => rw [hrs] at hr; simp only [hr, lastSaved]

/-! ### Resolution lemmas for the selection caches -/

theorem readCacheBody_parsed_arr (ts : List Json) (key : String) (n : Int) :
    readCacheBody (.parsed (.arr ts)) key n =
      match pyIndex ts (n - 1) with
      | some t => pySubscriptStr t key
      | none => .exn "IndexError" := by
  simp only [readCacheBody, pySubscriptInt]
  cases pyIndex ts (n - 1) <;> rfl

theorem pyIndex_coe_sub_one (ts : List Json) (i : Nat) (h1 : 1 ≤ i) :
    pyIndex ts ((i : Int) - 1) = ts[i - 1]? := by
  unfold pyIndex
  rw [if_pos (by omega)]
  congr 1
  omega

theorem pyIndex_neg_one (ts : List Json) : pyIndex ts (-1) = ts.getLast? := by
  unfold pyIndex
  rw [if_neg (by omega)]
  by_cases h : (-(-1 : Int)).toNat ≤ ts.length
  · rw [if_pos h]
    have h1 : (-(-1 : Int)).toNat = 1 := rfl
    rw [h1, (List.getLast?_eq_getElem? ts)]
  · rw [if_neg h]
    cases ts with
    | nil => rfl
    | cons a l =>
      exfalso
      apply h
      simp [List.length_cons]

theorem pyIndex_mem {ts : List Json} {n : Int} {t : Json}
    (h : pyIndex ts n = some t) : t ∈ ts := by
  unfold pyIndex at h
  split at h
  · exact List.getElem?_mem h
  · split at h
    · exact List.getElem?_mem h
    · exact absurd h (by simp)

theorem catchCacheExns_indexError : catchCacheExns (.exn "IndexError") = .ok .null := rfl

theorem pyIndex_out_of_range (ts : List Json) (i : Nat) (h : ts.length < i) :
    pyIndex ts ((i : Int) - 1) = none := by
  unfold pyIndex
  rw [if_pos (by omega)]
  apply List.getElem?_eq_none
  omega

theorem resolve_found (ts : List Json) (key : String) (i : Nat) (t v : Json)
    (h1 : 1 ≤ i) (ht : ts[i - 1]? = some t)
    (hv : pySubscriptStr t key = PyResult.ok v) :
    catchCacheExns (readCacheBody (.parsed (.arr ts)) key (i : Int)) = pySubscriptStr t key := by
  rw [readCacheBody_parsed_arr, pyIndex_coe_sub_one ts i h1, ht]
  show catchCacheExns (pySubscriptStr t key) = pySubscriptStr t key
  rw [hv]
  rfl

theorem resolve_zero (ts : List Json) (key : String) (t v : Json)
    (ht : ts.getLast? = some t) (hv : pySubscriptStr t key = PyResult.ok v) :
    catchCacheExns (readCacheBody (.parsed (.arr ts)) key 0) = pySubscriptStr t key := by
  rw [readCacheBody_parsed_arr]
  have h0 : (0 : Int) - 1 = -1 := by omega
  rw [h0, pyIndex_neg_one, ht]
  show catchCacheExns (pySubscriptStr t key) = pySubscriptStr t key
  rw [hv]
  rfl

theorem resolve_oob (ts : List Json) (key : String) :
    catchCacheExns (readCacheBody (.parsed (.arr ts)) key ((ts.length : Int) + 1)) = .ok .null := by
  rw [readCacheBody_parsed_arr]
  have hn : pyIndex ts ((ts.length : Int) + 1 - 1) = none := by
    unfold pyIndex
    rw [if_pos (by omega)]
    apply List.getElem?_eq_none
    omega
  rw [hn]
  rfl

/-- C1, counterexample: with two entries cached, `resolve(0)` returns the
*last* entry's identifier — Python's `entries[0 - 1]` is `entries[-1]` —
rather than `NotFound`/`None`, refuting the claim that `resolve(0)` yields
`NotFound`. -/
theorem C1_counterexample :
    get_cached_task
        (.parsed (.arr [.obj [("id", .str "alpha")], .obj [("id", .str "beta")]])) 0
      = .ok (.str "beta")
    ∧ (PyResult.ok (Json.str "beta") : PyResult Json) ≠ .ok .null :=
  ⟨rfl, by intro h; injection h with h1; exact Json.noConfusion h1⟩

/-- C1, amended: for a task selection cache of `N` saved entries (each
carrying an `"id"` field, as every entry the task listings write does) and
a run selection cache of `M` saved entries (each carrying a `"run_id"`
field, as every entry the runs listing writes does), `resolve(i)` with
`1 ≤ i ≤ N` (resp. `M`) returns the key field of the entry at position
`i - 1`; `resolve(N + 1)` (resp. `M + 1`) yields `NotFound` (`None`), as
does any `resolve` on an empty or missing cache; but `resolve(0)` on a
non-empty cache returns the key field of the *last* entry (position
`N - 1`, by Python negative indexing) instead of `NotFound`, and only
yields `NotFound` at 0 when the cached list is empty. -/
theorem C1_resolve_by_ordinal (ts rs : List Json) (i : Nat)
    (hid : ∀ t ∈ ts, ∃ v, pySubscriptStr t "id" = PyResult.ok v)
    (hrid : ∀ r ∈ rs, ∃ v, pySubscriptStr r "run_id" = PyResult.ok v) :
    (∀ t, 1 ≤ i → ts[i - 1]? = some t →
        get_cached_task (.parsed (.arr ts)) (i : Int) = pySubscriptStr t "id")
    ∧ (∀ r, 1 ≤ i → rs[i - 1]? = some r →
        get_cached_run (.parsed (.arr rs)) (i : Int) = pySubscriptStr r "run_id")
    ∧ (∀ t, ts.getLast? = some t →
        get_cached_task (.parsed (.arr ts)) 0 = pySubscriptStr t "id")
    ∧ (∀ r, rs.getLast? = some r →
        get_cached_run (.parsed (.arr rs)) 0 = pySubscriptStr r "run_id")
    ∧ (ts = [] → get_cached_task (.parsed (.arr ts)) 0 = .ok .null)
    ∧ (rs = [] → get_cached_run (.parsed (.arr rs)) 0 = .ok .null)
    ∧ (get_cached_task (.parsed (.arr ts)) ((ts.length : Int) + 1) = .ok .null
        ∧ get_cached_run (.parsed (.arr rs)) ((rs.length : Int) + 1) = .ok .null)
    ∧ (∀ n : Int, get_cached_task .absent n = .ok .null
        ∧ get_cached_run .absent n = .ok .null) := by
  refine ⟨?_, ?_, ?_, ?_, ?_, ?_,
    ⟨resolve_oob ts "id", resolve_oob rs "run_id"⟩, fun n => ⟨rfl, rfl⟩⟩
  · intro t h1 ht
    obtain ⟨v, hv⟩ := hid t (List.getElem?_mem ht)
    exact resolve_found ts "id" i t v h1 ht hv
  · intro r h1 hr
    obtain ⟨v, hv⟩ := hrid r (List.getElem?_mem hr)
    exact resolve_found rs "run_id" i r v h1 hr hv
  · intro t ht
    have hmem : t ∈ ts := by
      have := List.getLast?_eq_getElem? ts
      rw [ht] at this
      exact List.getElem?_mem this.symm
    obtain ⟨v, hv⟩ := hid t hmem
    exact resolve_zero ts "id" t v ht hv
  · intro r hr
    have hmem : r ∈ rs := by
      have := List.getLast?_eq_getElem? rs
      rw [hr] at this
      exact List.getElem?_mem this.symm
    obtain ⟨v, hv⟩ := hrid r hmem
    exact resolve_zero rs "run_id" r v hr hv
  · intro h
    subst h
    rfl
  · intro h
    subst h
    rfl

/-- C1, witness: on caches holding exactly the entry shapes the program
saves — task entries `id`/`status`/`updated` from `list_tasks`, run
entries `run_id`/`task_id`/`status` from `list_runs` — `resolve(1)` on the
task cache returns the first entry's `id` and `resolve(0)` on the run
cache returns the *last* entry's `run_id`. -/
theorem C1_witness :
    get_cached_task
        (.parsed (.arr [mkTaskEntry (.str "sendEmail") (.str "COMPLETED") (.str "2024-01-02"),
                        mkTaskEntry (.str "archiveUser") .null (.str "")])) 1
      = .ok (.str "sendEmail")
    ∧ get_cached_run
        (.parsed (.arr [mkRunCacheEntry (.str "r1") (.str "sendEmail") (.str "EXECUTING"),
                        mkRunCacheEntry (.str "r2") (.str "archiveUser") (.str "QUEUED")])) 0
      = .ok (.str "r2") := by
  have h := C1_resolve_by_ordinal
    [mkTaskEntry (.str "sendEmail") (.str "COMPLETED") (.str "2024-01-02"),
     mkTaskEntry (.str "archiveUser") .null (.str "")]
    [mkRunCacheEntry (.str "r1") (.str "sendEmail") (.str "EXECUTING"),
     mkRunCacheEntry (.str "r2") (.str "archiveUser") (.str "QUEUED")] 1
    (by
      intro t ht
      rcases List.mem_cons.mp ht with h1 | h1
      · exact ⟨.str "sendEmail", by subst h1; rfl⟩
      · rcases List.mem_cons.mp h1 with h2 | h2
        · exact ⟨.str "archiveUser", by subst h2; rfl⟩
        · cases h2)
    (by
      intro r hr
      rcases List.mem_cons.mp hr with h1 | h1
      · exact ⟨.str "r1", by subst h1; rfl⟩
      · rcases List.mem_cons.mp h1 with h2 | h2
        · exact ⟨.str "r2", by subst h2; rfl⟩
        · cases h2)
  constructor
  · have := h.1 (mkTaskEntry (.str "sendEmail") (.str "COMPLETED") (.str "2024-01-02"))
      (by omega) rfl
    exact this.trans rfl
  · have := h.2.2.2.1 (mkRunCacheEntry (.str "r2") (.str "archiveUser") (.str "QUEUED")) rfl
    exact this.trans rfl

/-- C4, counterexample: a cache file whose content fails to deserialize
makes the resolver raise `json.JSONDecodeError` — a hard error propagating
to the caller — rather than yielding `NotFound`, because the `except`
clause catches only `FileNotFoundError`, `IndexError` and `KeyError`. -/
theorem C4_counterexample :
    get_cached_run (.unparsable "not json") 1 = .exn "json.JSONDecodeError"
    ∧ (PyResult.exn "json.JSONDecodeError" : PyResult Json) ≠ .ok .null :=
  ⟨rfl, by intro h; exact PyResult.noConfusion h⟩

/-- C4, amended: resolution fails softly with `NotFound` (`None`) when the
cache file is absent, when the index is out of bounds, or when the entry
lacks the expected key (`FileNotFoundError`, `IndexError`, `KeyError` are
caught) — but cache content that fails to deserialize raises an uncaught
`json.JSONDecodeError`, a hard error to the caller. -/
theorem C4_soft_failure_except_decode (es : List Json) (n : Nat) (raw : String) :
    (get_cached_run .absent (n : Int) = .ok .null
      ∧ get_cached_task .absent (n : Int) = .ok .null)
    ∧ (es.length < n → get_cached_run (.parsed (.arr es)) (n : Int) = .ok .null)
    ∧ (∀ t, 1 ≤ n → es[n - 1]? = some t → pySubscriptStr t "run_id" = .exn "KeyError" →
        get_cached_run (.parsed (.arr es)) (n : Int) = .ok .null)
    ∧ (get_cached_run (.unparsable raw) (n : Int) = .exn "json.JSONDecodeError"
      ∧ get_cached_task (.unparsable raw) (n : Int) = .exn "json.JSONDecodeError") := by
  refine ⟨⟨rfl, rfl⟩, ?_, ?_, ⟨rfl, rfl⟩⟩
  · intro h
    unfold get_cached_run
    rw [readCacheBody_parsed_arr, pyIndex_out_of_range es n h]
    rfl
  · intro t h1 ht hk
    unfold get_cached_run
    rw [readCacheBody_parsed_arr, pyIndex_coe_sub_one es n h1, ht]
    show catchCacheExns (pySubscriptStr t "run_id") = .ok .null
    rw [hk]
    rfl

/-- C4, witness: concrete soft failures — empty cache at index 1, and an
entry missing the `run_id` key. -/
theorem C4_witness :
    get_cached_run (.parsed (.arr [])) 1 = .ok .null
    ∧ get_cached_run (.parsed (.arr [.obj []])) 1 = .ok .null := by
  have h1 := C4_soft_failure_except_decode [] 1 "x"
  have h2 := C4_soft_failure_except_decode [.obj []] 1 "x"
  exact ⟨h1.2.1 (by decide), h2.2.2.1 (.obj []) (by decide) rfl rfl⟩

/-- C9: after `save(A)` then `save(B)` on the task cache, every resolve
that returns a non-`None` value returns the `id` field of an element of
`B` — the second save fully replaces the first, so no element of `A` that
is not in `B` can ever be returned. -/
theorem C9_save_overwrites (A B : List Json) (prev : CacheFileState) (n : Int) (v : Json)
    (hok : get_cached_task (json_dump_save B (json_dump_save A prev)) n = .ok v)
    (hv : v ≠ .null) :
    ∃ t ∈ B, pySubscriptStr t "id" = .ok v := by
  unfold json_dump_save at hok
  unfold get_cached_task at hok
  rw [readCacheBody_parsed_arr] at hok
  cases hpi : pyIndex B (n - 1) with
  | none =>
    rw [hpi] at hok
    injection hok with h
    exact absurd h.symm hv
  | some t =>
    rw [hpi] at hok
    replace hok : catchCacheExns (pySubscriptStr t "id") = .ok v := hok
    have htB := pyIndex_mem hpi
    cases hs : pySubscriptStr t "id" with
    | ok w =>
      rw [hs] at hok
      injection hok with h
      exact ⟨t, htB, by rw [hs, h]⟩
    | exn e =>
      rw [hs] at hok
      replace hok : (if e ∈ CACHE_READ_CAUGHT then PyResult.ok Json.null
          else PyResult.exn e) = PyResult.ok v := hok
      by_cases he : e ∈ CACHE_READ_CAUGHT
      · rw [if_pos he] at hok
        injection hok with h
        exact absurd h.symm hv
      · rw [if_neg he] at hok
        exact PyResult.noConfusion hok

/-- C9, witness: after saving `[{"id": "old"}]` and then `[{"id": "new"}]`,
resolving ordinal 1 returns `"new"` — an element of the second list. -/
theorem C9_witness :
    ∃ t ∈ [Json.obj [("id", Json.str "new")]],
      pySubscriptStr t "id" = PyResult.ok (.str "new") :=
  C9_save_overwrites [.obj [("id", .str "old")]] [.obj [("id", .str "new")]]
    .absent 1 (.str "new") rfl (by intro h; exact Json.noConfusion h)

/-! ### Dispatcher claims -/

/-- C5: with the API credential unset, every invocation other than
`-h`/`--help` prints the missing-key message and exits with code 1 before
any network call; `-h`/`--help` prints the usage text and exits with code
0, also without a network call, credential or not. -/
theorem C5_missing_credential (args : List String) (env : Env) (w : World)
    (hkey : env.apiKey = none) :
    ((args.contains "-h" || args.contains "--help") = false →
        mainRun args env w =
          { exitCode := 1, calls := [], printed := ["❌ TRIGGER_SECRET_KEY not set"],
            opened := [], taskCache := w.taskCache0, runCache := w.runCache0,
            crashed := none })
    ∧ ((args.contains "-h" || args.contains "--help") = true →
        mainRun args env w =
          { exitCode := 0, calls := [], printed := [usageText], opened := [],
            taskCache := w.taskCache0, runCache := w.runCache0, crashed := none }) := by
  constructor
  · intro h
    unfold mainRun
    rw [h, hkey]
    rfl
  · intro h
    unfold mainRun
    rw [h]
    rfl

/-- C5, witness: `trigger runs` without a credential exits 1 with no call;
`trigger -h` without a credential prints usage and exits 0. -/
theorem C5_witness :
    mainRun ["runs"] envNoKey worldBase =
      { exitCode := 1, calls := [], printed := ["❌ TRIGGER_SECRET_KEY not set"],
        opened := [], taskCache := worldBase.taskCache0, runCache := worldBase.runCache0,
        crashed := none }
    ∧ mainRun ["-h"] envNoKey worldBase =
      { exitCode := 0, calls := [], printed := [usageText], opened := [],
        taskCache := worldBase.taskCache0, runCache := worldBase.runCache0,
        crashed := none } :=
  ⟨(C5_missing_credential ["runs"] envNoKey worldBase rfl).1 rfl,
   (C5_missing_credential ["-h"] envNoKey worldBase rfl).2 rfl⟩

theorem mainRun_run_literal (tid : String) (env : Env) (w : World)
    (hkey : optTruthy env.apiKey = true)
    (h1 : tid ≠ "-h") (h2 : tid ≠ "--help") (h3 : tid ≠ "-y") (h4 : tid ≠ "--open")
    (h5 : tid ≠ "-p") :
    mainRun ["run", tid] env w = run_task env w (.str tid) none false false := by
  have e1 : ("-h" == tid) = false := beq_eq_false_iff_ne.mpr (Ne.symm h1)
  have e2 : ("--help" == tid) = false := beq_eq_false_iff_ne.mpr (Ne.symm h2)
  have e3 : ("-y" == tid) = false := beq_eq_false_iff_ne.mpr (Ne.symm h3)
  have e4 : ("--open" == tid) = false := beq_eq_false_iff_ne.mpr (Ne.symm h4)
  have e5 : ("-p" == tid) = false := beq_eq_false_iff_ne.mpr (Ne.symm h5)
  have f3 : (tid == "-y") = false := beq_eq_false_iff_ne.mpr h3
  have f4 : (tid == "--open") = false := beq_eq_false_iff_ne.mpr h4
  unfold mainRun
  simp only [List.contains, List.elem, e1, e2, e3, e4, e5, Bool.or_false, Bool.or_self,
    Bool.false_or, hkey, Bool.not_true, List.filter, f3, f4]
  rfl

theorem mainRun_cancel_literal (rid : String) (env : Env) (w : World)
    (hkey : optTruthy env.apiKey = true)
    (h1 : rid ≠ "-h") (h2 : rid ≠ "--help") (h3 : rid ≠ "-y") (h4 : rid ≠ "--open")
    (hdig : pyIsDigit rid = false) :
    mainRun ["cancel", rid] env w = cancel_run env w (.str rid) false := by
  have e1 : ("-h" == rid) = false := beq_eq_false_iff_ne.mpr (Ne.symm h1)
  have e2 : ("--help" == rid) = false := beq_eq_false_iff_ne.mpr (Ne.symm h2)
  have e3 : ("-y" == rid) = false := beq_eq_false_iff_ne.mpr (Ne.symm h3)
  have e4 : ("--open" == rid) = false := beq_eq_false_iff_ne.mpr (Ne.symm h4)
  have f3 : (rid == "-y") = false := beq_eq_false_iff_ne.mpr h3
  have f4 : (rid == "--open") = false := beq_eq_false_iff_ne.mpr h4
  unfold mainRun
  simp [List.contains, List.elem, e1, e2, e3, e4, hkey, List.filter, f3, f4, hdig]

/-- The Cancelled-and-exit-0 outcome of a declined confirmation. -/
theorem run_task_declined (env : Env) (w : World) (task_id : Json) (payload : Option Json)
    (auto_open : Bool) (hc : confirm w.answer = false) :
    run_task env w task_id payload auto_open false =
      { exitCode := 0, calls := [], printed := ["Cancelled"], opened := [],
        taskCache := w.taskCache0, runCache := w.runCache0, crashed := none } := by
  unfold run_task
  rw [hc]
  rfl

theorem cancel_run_declined (env : Env) (w : World) (run_id : Json)
    (hc : confirm w.answer = false) :
    cancel_run env w run_id false =
      { exitCode := 0, calls := [], printed := ["Cancelled"], opened := [],
        taskCache := w.taskCache0, runCache := w.runCache0, crashed := none } := by
  unfold cancel_run
  rw [hc]
  rfl

def worldAnswerY : World := { worldBase with answer := .text "Y" }

/-- C6, counterexample: the answer "Y" is a string other than "y" and
"yes", yet `cancel` without `-y` proceeds to contact the API and never
prints "Cancelled" — the code compares the *stripped, lowercased* answer
against "y"/"yes", so the claim's "any string other than y/yes aborts" is
false as stated. -/
theorem C6_counterexample :
    ("Y" ≠ "y" ∧ "Y" ≠ "yes")
    ∧ (mainRun ["cancel", "run_abc"] envOk worldAnswerY).calls
        = [{ isPost := true, url := "https://api.trigger.dev/api/v2/runs/run_abc/cancel",
             params := [] }]
    ∧ "Cancelled" ∉ (mainRun ["cancel", "run_abc"] envOk worldAnswerY).printed
    ∧ (mainRun ["cancel", "run_abc"] envOk worldAnswerY).exitCode = 0 :=
  ⟨⟨by decide, by decide⟩, rfl, by decide, rfl⟩

/-- C6, amended: for a `run` or `cancel` invocation without `-y`, a
confirmation answer that is non-affirmative after normalisation — its
whitespace-stripped, lowercased text is neither "y" nor "yes" (in
particular the empty input), or end-of-input, or an interrupt — aborts the
action: no network call is made, "Cancelled" is printed, and the process
exits with code 0. -/
theorem C6_decline_aborts (tid rid : String) (env : Env) (w : World)
    (hkey : optTruthy env.apiKey = true)
    (hans : match w.answer with
            | .text s => pyLower (pyStrip s) ≠ "y" ∧ pyLower (pyStrip s) ≠ "yes"
            | .eofInput => True
            | .interrupt => True)
    (ht1 : tid ≠ "-h") (ht2 : tid ≠ "--help") (ht3 : tid ≠ "-y") (ht4 : tid ≠ "--open")
    (ht5 : tid ≠ "-p")
    (hr1 : rid ≠ "-h") (hr2 : rid ≠ "--help") (hr3 : rid ≠ "-y") (hr4 : rid ≠ "--open")
    (hrdig : pyIsDigit rid = false) :
    mainRun ["run", tid] env w =
      { exitCode := 0, calls := [], printed := ["Cancelled"], opened := [],
        taskCache := w.taskCache0, runCache := w.runCache0, crashed := none }
    ∧ mainRun ["cancel", rid] env w =
      { exitCode := 0, calls := [], printed := ["Cancelled"], opened := [],
        taskCache := w.taskCache0, runCache := w.runCache0, crashed := none } := by
  have hc : confirm w.answer = false := by
    cases ha : w.answer with
    | text s =>
      rw [ha] at hans
      obtain ⟨hy, hyes⟩ := hans
      show (pyLower (pyStrip s) == "y" || pyLower (pyStrip s) == "yes") = false
      rw [beq_eq_false_iff_ne.mpr hy, beq_eq_false_iff_ne.mpr hyes]
      rfl
    | eofInput => rfl
    | interrupt => rfl
  constructor
  · rw [mainRun_run_literal tid env w hkey ht1 ht2 ht3 ht4 ht5]
    exact run_task_declined env w (.str tid) none false hc
  · rw [mainRun_cancel_literal rid env w hkey hr1 hr2 hr3 hr4 hrdig]
    exact cancel_run_declined env w (.str rid) hc

/-- C6, witness: with an empty answer, `run sendEmail` and
`cancel run_abc` both print "Cancelled", make no call and exit 0. -/
theorem C6_witness :
    mainRun ["run", "sendEmail"] envOk worldBase =
      { exitCode := 0, calls := [], printed := ["Cancelled"], opened := [],
        taskCache := worldBase.taskCache0, runCache := worldBase.runCache0,
        crashed := none }
    ∧ mainRun ["cancel", "run_abc"] envOk worldBase =
      { exitCode := 0, calls := [], printed := ["Cancelled"], opened := [],
        taskCache := worldBase.taskCache0, runCache := worldBase.runCache0,
        crashed := none } :=
  C6_decline_aborts "sendEmail" "run_abc" envOk worldBase rfl
    (by constructor <;> decide)
    (by decide) (by decide) (by decide) (by decide) (by decide)
    (by decide) (by decide) (by decide) (by decide) rfl

theorem run_task_calls (env : Env) (w : World) (task_id : Json) (payload : Option Json)
    (auto_open skip_confirm : Bool)
    (h : (!skip_confirm && !confirm w.answer) = false) :
    (run_task env w task_id payload auto_open skip_confirm).calls
      = [{ isPost := true, url := BASE_URL ++ "/tasks/" ++ pyFStr task_id ++ "/trigger",
           params := [] }] := by
  unfold run_task
  rw [h]
  simp only [Bool.false_eq_true, if_false]
  split
  · rfl
  · split
    · rfl
    · split
      · rfl
      · rfl

theorem pyIsDigit_ne {s t : String} (hdig : pyIsDigit s = true)
    (ht : pyIsDigit t = false) : s ≠ t := by
  intro h
  rw [h, ht] at hdig
  exact Bool.noConfusion hdig

theorem mainRun_bare_digit (n : String) (env : Env) (w : World)
    (hkey : optTruthy env.apiKey = true) (hdig : pyIsDigit n = true) :
    mainRun [n] env w =
      match get_cached_task w.taskCache0 (digitsToNat n) with
      | .exn e => crashOutcome w e
      | .ok v =>
        if !pyTruthy v then printExit w ["❌ Run 'trigger list' first"] 1
        else run_task env w v none false false := by
  have d1 : n ≠ "-h" := pyIsDigit_ne hdig (by decide)
  have d2 : n ≠ "--help" := pyIsDigit_ne hdig (by decide)
  have d3 : n ≠ "-y" := pyIsDigit_ne hdig (by decide)
  have d4 : n ≠ "--open" := pyIsDigit_ne hdig (by decide)
  have d5 : n ≠ "list" := pyIsDigit_ne hdig (by decide)
  have d6 : n ≠ "schedules" := pyIsDigit_ne hdig (by decide)
  have d7 : n ≠ "runs" := pyIsDigit_ne hdig (by decide)
  have d8 : n ≠ "cancel" := pyIsDigit_ne hdig (by decide)
  have d9 : n ≠ "run" := pyIsDigit_ne hdig (by decide)
  have e1 : ("-h" == n) = false := beq_eq_false_iff_ne.mpr (Ne.symm d1)
  have e2 : ("--help" == n) = false := beq_eq_false_iff_ne.mpr (Ne.symm d2)
  have e3 : ("-y" == n) = false := beq_eq_false_iff_ne.mpr (Ne.symm d3)
  have e4 : ("--open" == n) = false := beq_eq_false_iff_ne.mpr (Ne.symm d4)
  have f3 : (n == "-y") = false := beq_eq_false_iff_ne.mpr d3
  have f4 : (n == "--open") = false := beq_eq_false_iff_ne.mpr d4
  have f5 : (n == "list") = false := beq_eq_false_iff_ne.mpr d5
  have f6 : (n == "schedules") = false := beq_eq_false_iff_ne.mpr d6
  have f7 : (n == "runs") = false := beq_eq_false_iff_ne.mpr d7
  have f8 : (n == "cancel") = false := beq_eq_false_iff_ne.mpr d8
  have f9 : (n == "run") = false := beq_eq_false_iff_ne.mpr d9
  unfold mainRun
  simp [List.contains, List.elem, List.filter, hkey, hdig,
    e1, e2, e3, e4, f3, f4, f5, f6, f7, f8, f9]

/-- C2, counterexample: with three tasks cached — position 3 holding
"gamma" — the invocation `run 3 -y` triggers a task literally named "3":
the dispatcher's `run` branch passes `args[1]` straight to `run_task` and
never consults the task selection cache, refuting the claim. -/
theorem C2_counterexample :
    get_cached_task worldBase.taskCache0 3 = .ok (.str "gamma")
    ∧ (mainRun ["run", "3", "-y"] envOk worldBase).calls
        = [{ isPost := true, url := "https://api.trigger.dev/api/v1/tasks/3/trigger",
             params := [] }]
    ∧ "https://api.trigger.dev/api/v1/tasks/3/trigger"
        ≠ "https://api.trigger.dev/api/v1/tasks/gamma/trigger" :=
  ⟨rfl, rfl, by decide⟩

/-- C2, amended: the `run <arg>` command always treats `<arg>` as a
literal task identifier — even when it is a positive integer ordinal, the
triggered URL names the digits and no cache read occurs; ordinal
resolution through the task Selection Cache happens only for the *bare*
`<ordinal>` invocation form (no `run` keyword), which triggers the cached
task the ordinal resolves to. -/
theorem C2_run_literal_not_ordinal (tid n : String) (v : Json) (env : Env) (w : World)
    (hkey : optTruthy env.apiKey = true)
    (ht1 : tid ≠ "-h") (ht2 : tid ≠ "--help") (ht3 : tid ≠ "-y") (ht4 : tid ≠ "--open")
    (ht5 : tid ≠ "-p")
    (hdig : pyIsDigit n = true)
    (hv : get_cached_task w.taskCache0 (digitsToNat n) = .ok v)
    (htr : pyTruthy v = true)
    (hconf : confirm w.answer = true) :
    (mainRun ["run", tid] env w).calls
      = [{ isPost := true, url := BASE_URL ++ "/tasks/" ++ tid ++ "/trigger", params := [] }]
    ∧ (mainRun [n] env w).calls
      = [{ isPost := true, url := BASE_URL ++ "/tasks/" ++ pyFStr v ++ "/trigger",
           params := [] }] := by
  have hskip : (!false && !confirm w.answer) = false := by rw [hconf]; rfl
  constructor
  · rw [mainRun_run_literal tid env w hkey ht1 ht2 ht3 ht4 ht5]
    exact run_task_calls env w (.str tid) none false false hskip
  · rw [mainRun_bare_digit n env w hkey hdig, hv]
    show (if !pyTruthy v then printExit w ["❌ Run 'trigger list' first"] 1
        else run_task env w v none false false).calls = _
    rw [htr]
    simp only [Bool.not_true, Bool.false_eq_true, if_false]
    exact run_task_calls env w v none false false hskip

def worldYes : World := { worldBase with answer := .text "y" }

/-- C2, witness: concretely, `run 3` triggers the literal task "3" while
the bare `3` triggers the cached "gamma". -/
theorem C2_witness :
    (mainRun ["run", "3"] envOk worldYes).calls
      = [{ isPost := true, url := BASE_URL ++ "/tasks/" ++ "3" ++ "/trigger", params := [] }]
    ∧ (mainRun ["3"] envOk worldYes).calls
      = [{ isPost := true, url := BASE_URL ++ "/tasks/" ++ pyFStr (.str "gamma") ++ "/trigger",
           params := [] }] :=
  C2_run_literal_not_ordinal "3" "3" (.str "gamma") envOk worldYes rfl
    (by decide) (by decide) (by decide) (by decide) (by decide)
    rfl rfl rfl rfl

/-! ### The runs listing filter -/

theorem pyResult_ok_bind {α β : Type} (v : α) (f : α → PyResult β) :
    (PyResult.ok v >>= f) = f v := rfl

theorem pyResult_exn_bind {α β : Type} (e : String) (f : α → PyResult β) :
    ((PyResult.exn e : PyResult α) >>= f) = .exn e := rfl

/-- The condition `r.get("status") not in ("COMPLETED", "FAILED", "CANCELED")`
on an object-shaped run entry. -/
def statusNotTerminal (r : Json) : Bool :=
  match r with
  | .obj f => !isTerminalStatus ((pyLookup f "status").getD .null)
  | _ => true

/-- C7: for every fetched run sequence (of object-shaped entries, as the
API returns), the `--active` filter keeps exactly the entries whose status
is not in {COMPLETED, FAILED, CANCELED}, preserving their input order (the
result is the `List.filter`, a sublist of the input); and the filtering is
client-side after the fetch — the request `list_runs` issues is the same
with or without `--active` and carries only the `page[size]` parameter,
never a status parameter. -/
theorem C7_active_filter_clientside (fields : List (List (String × Json)))
    (a : Bool) (resp : HttpResp) (tc rc : CacheFileState) :
    activeFilterLoop (fields.map Json.obj)
      = .ok ((fields.map Json.obj).filter statusNotTerminal)
    ∧ List.Sublist ((fields.map Json.obj).filter statusNotTerminal) (fields.map Json.obj)
    ∧ (list_runs_outcome resp a tc rc).calls = [listRunsCall]
    ∧ listRunsCall.params = [("page[size]", 50)]
    ∧ listRunsCall.url = BASE_URL ++ "/runs" := by
  refine ⟨?_, List.filter_sublist _, ?_, rfl, rfl⟩
  · induction fields with
    | nil => rfl
    | cons f fs ih =>
      show (pyGet (.obj f) "status" .null >>= fun st =>
          activeFilterLoop (fs.map Json.obj) >>= fun tail =>
          if isTerminalStatus st then pure tail else pure (Json.obj f :: tail))
        = .ok ((Json.obj f :: fs.map Json.obj).filter statusNotTerminal)
      rw [show pyGet (.obj f) "status" .null = .ok ((pyLookup f "status").getD .null) from rfl,
        pyResult_ok_bind, ih, pyResult_ok_bind]
      by_cases hst : isTerminalStatus ((pyLookup f "status").getD .null) = true
      · rw [if_pos hst]
        simp [List.filter, statusNotTerminal, hst]
        rfl
      · rw [if_neg hst]
        simp only [Bool.not_eq_true] at hst
        simp [List.filter, statusNotTerminal, hst]
        rfl
  · cases resp with
    | failure code => rfl
    | success body =>
      cases hx : (do
          let data ← pyGet body "data" (.arr [])
          let runs0 ← pyIterList data
          let runs ← if a then activeFilterLoop runs0 else pure runs0
          let cacheEntries ← runsCacheLoop runs
          pure (runs, cacheEntries)) with
      | exn e => simp [list_runs_outcome, hx]
      | ok p =>
        cases p with
        | mk runs entries => simp [list_runs_outcome, hx]

/-! ### Properties of the local scan -/

/-- The filter applied to each captured identifier by the
`list_tasks_local` loop: not a template string, and (when a truthy search
term was given) containing the lowered search term. -/
def keepsId (search : Option String) (tid : String) : Bool :=
  !startsWithDollar tid
    && (!optTruthy search || pySubstr (pyLower (search.getD "")) (pyLower tid))

theorem collectIds_mem (search : Option String) :
    ∀ (l acc : List String) (tid : String),
      tid ∈ collectIds search l acc ↔
        tid ∈ acc ∨ (tid ∈ l ∧ keepsId search tid = true) := by
  intro l
  induction l with
  | nil =>
    intro acc tid
    simp [collectIds]
  | cons t rest ih =>
    intro acc tid
    unfold collectIds
    by_cases h1 : startsWithDollar t = true
    · rw [if_pos h1, ih]
      have hkt : keepsId search t = false := by simp [keepsId, h1]
      constructor
      · rintro (h | ⟨hm, hk⟩)
        · exact Or.inl h
        · exact Or.inr ⟨List.mem_cons_of_mem _ hm, hk⟩
      · rintro (h | ⟨hm, hk⟩)
        · exact Or.inl h
        · rcases List.mem_cons.mp hm with rfl | hm'
          · rw [hkt] at hk
            exact Bool.noConfusion hk
          · exact Or.inr ⟨hm', hk⟩
    · rw [if_neg h1]
      replace h1 : startsWithDollar t = false := by
        cases hb : startsWithDollar t with
        | false => rfl
        | true => exact absurd hb h1
      by_cases h2 : (optTruthy search
          && !pySubstr (pyLower (search.getD "")) (pyLower t)) = true
      · rw [if_pos h2, ih]
        have hkt : keepsId search t = false := by
          have h2' := h2
          simp only [Bool.and_eq_true] at h2'
          obtain ⟨ho, hs⟩ := h2'
          simp only [Bool.not_eq_true'] at hs
          simp [keepsId, h1, ho, hs]
        constructor
        · rintro (h | ⟨hm, hk⟩)
          · exact Or.inl h
          · exact Or.inr ⟨List.mem_cons_of_mem _ hm, hk⟩
        · rintro (h | ⟨hm, hk⟩)
          · exact Or.inl h
          · rcases List.mem_cons.mp hm with rfl | hm'
            · rw [hkt] at hk
              exact Bool.noConfusion hk
            · exact Or.inr ⟨hm', hk⟩
      · rw [if_neg h2]
        have hkt : keepsId search t = true := by
          have h2' : (optTruthy search = false)
              ∨ pySubstr (pyLower (search.getD "")) (pyLower t) = true := by
            cases ho : optTruthy search with
            | false => exact Or.inl rfl
            | true =>
              cases hs : pySubstr (pyLower (search.getD "")) (pyLower t) with
              | true => exact Or.inr rfl
              | false => exact absurd (by rw [ho, hs]; rfl) h2
          rcases h2' with ho | hs
          · simp [keepsId, h1, ho]
          · simp [keepsId, h1, hs]
        by_cases h3 : t ∈ acc
        · rw [if_pos h3, ih]
          constructor
          · rintro (h | ⟨hm, hk⟩)
            · exact Or.inl h
            · exact Or.inr ⟨List.mem_cons_of_mem _ hm, hk⟩
          · rintro (h | ⟨hm, hk⟩)
            · exact Or.inl h
            · rcases List.mem_cons.mp hm with rfl | hm'
              · exact Or.inl h3
              · exact Or.inr ⟨hm', hk⟩
        · rw [if_neg h3, ih]
          constructor
          · rintro (h | ⟨hm, hk⟩)
            · rcases List.mem_append.mp h with h' | h'
              · exact Or.inl h'
              · rcases List.mem_singleton.mp h' with rfl
                exact Or.inr ⟨List.mem_cons_self _ _, hkt⟩
            · exact Or.inr ⟨List.mem_cons_of_mem _ hm, hk⟩
          · rintro (h | ⟨hm, hk⟩)
            · exact Or.inl (List.mem_append.mpr (Or.inl h))
            · rcases List.mem_cons.mp hm with rfl | hm'
              · exact Or.inl (List.mem_append.mpr (Or.inr (List.mem_singleton.mpr rfl)))
              · exact Or.inr ⟨hm', hk⟩

theorem collectIds_nodup (search : Option String) :
    ∀ (l acc : List String), acc.Nodup → (collectIds search l acc).Nodup := by
  intro l
  induction l with
  | nil => intro acc h; exact h
  | cons t rest ih =>
    intro acc h
    unfold collectIds
    by_cases h1 : startsWithDollar t = true
    · rw [if_pos h1]; exact ih acc h
    · rw [if_neg h1]
      by_cases h2 : (optTruthy search
          && !pySubstr (pyLower (search.getD "")) (pyLower t)) = true
      · rw [if_pos h2]; exact ih acc h
      · rw [if_neg h2]
        by_cases h3 : t ∈ acc
        · rw [if_pos h3]; exact ih acc h
        · rw [if_neg h3]
          apply ih
          simp [List.nodup_append, h, h3]

/-! Totality and transitivity of the lexicographic comparison, so that
insertion sort produces a sorted permutation. -/

theorem charsLe_total : ∀ x y : List Char, charsLe x y = true ∨ charsLe y x = true := by
  intro x
  induction x with
  | nil => intro y; exact Or.inl rfl
  | cons a as ih =>
    intro y
    cases y with
    | nil => exact Or.inr rfl
    | cons b bs =>
      rcases lt_trichotomy a b with hab | hab | hab
      · left
        unfold charsLe
        rw [if_pos hab]
      · subst hab
        rcases ih bs with h | h
        · left
          unfold charsLe
          rw [if_neg (lt_irrefl a), if_neg (lt_irrefl a)]
          exact h
        · right
          unfold charsLe
          rw [if_neg (lt_irrefl a), if_neg (lt_irrefl a)]
          exact h
      · right
        unfold charsLe
        rw [if_pos hab]

theorem charsLe_trans : ∀ x y z : List Char,
    charsLe x y = true → charsLe y z = true → charsLe x z = true := by
  intro x
  induction x with
  | nil => intro y z _ _; rfl
  | cons a as ih =>
    intro y z hxy hyz
    cases y with
    | nil => exact absurd hxy (by simp [charsLe])
    | cons b bs =>
      cases z with
      | nil => exact absurd hyz (by simp [charsLe])
      | cons c cs =>
        unfold charsLe at hxy hyz ⊢
        by_cases hab : a < b
        · by_cases hbc : b < c
          · rw [if_pos (lt_trans hab hbc)]
          · by_cases hcb : c < b
            · rw [if_neg hbc, if_pos hcb] at hyz
              exact Bool.noConfusion hyz
            · have hbc' : b = c := le_antisymm (le_of_not_lt hcb) (le_of_not_lt hbc)
              subst hbc'
              rw [if_pos hab]
        · by_cases hba : b < a
          · rw [if_neg hab, if_pos hba] at hxy
            exact Bool.noConfusion hxy
          · have hab' : a = b := le_antisymm (le_of_not_lt hba) (le_of_not_lt hab)
            subst hab'
            rw [if_neg (lt_irrefl a), if_neg (lt_irrefl a)] at hxy
            by_cases hac : a < c
            · rw [if_pos hac]
            · by_cases hca : c < a
              · rw [if_neg hac, if_pos hca] at hyz
                exact Bool.noConfusion hyz
              · rw [if_neg hac, if_neg hca] at hyz ⊢
                exact ih bs cs hxy hyz

instance : IsTotal String (fun a b => pyStrLe a b = true) :=
  ⟨fun a b => charsLe_total a.data b.data⟩

instance : IsTrans String (fun a b => pyStrLe a b = true) :=
  ⟨fun a b c => charsLe_trans a.data b.data c.data⟩

theorem pySorted_sorted (l : List String) :
    (pySorted l).Sorted (fun a b => pyStrLe a b = true) :=
  List.sorted_insertionSort _ l

theorem pySorted_perm (l : List String) : List.Perm (pySorted l) l :=
  List.perm_insertionSort _ l

/-- C8: for every set of scanned local source files (given by their
contents, in walk order) and any search term, the `list --local` result
excludes every extracted identifier that begins with the template sentinel
`$`, contains each remaining identifier exactly once (it is
duplicate-free), and is sorted alphabetically (lexicographically by code
point); and without a search term it contains an identifier exactly when
the identifier was captured from some file and does not begin with `$`. -/
theorem C8_local_scan_result (files : List String) (search : Option String) :
    (∀ tid ∈ list_tasks_local_ids search files, startsWithDollar tid = false)
    ∧ (list_tasks_local_ids search files).Nodup
    ∧ (list_tasks_local_ids search files).Sorted (fun a b => pyStrLe a b = true)
    ∧ (∀ tid, tid ∈ list_tasks_local_ids none files ↔
        tid ∈ files.flatMap findIdMatches ∧ startsWithDollar tid = false) := by
  refine ⟨?_, ?_, pySorted_sorted _, ?_⟩
  · intro tid hmem
    have h := (pySorted_perm (collectIds search (files.flatMap findIdMatches) [])).mem_iff.mp hmem
    rcases (collectIds_mem search _ [] tid).mp h with h' | ⟨_, hk⟩
    · cases h'
    · simp only [keepsId, Bool.and_eq_true] at hk
      obtain ⟨hd, _⟩ := hk
      simpa using hd
  · exact (pySorted_perm _).nodup_iff.mpr (collectIds_nodup search _ [] List.nodup_nil)
  · intro tid
    unfold list_tasks_local_ids
    rw [(pySorted_perm (collectIds none (files.flatMap findIdMatches) [])).mem_iff,
      collectIds_mem none _ [] tid]
    have hk : keepsId none tid = !startsWithDollar tid := by
      simp [keepsId, optTruthy]
    constructor
    · rintro (h | ⟨hm, hkeep⟩)
      · cases h
      · rw [hk] at hkeep
        simp only [Bool.not_eq_true'] at hkeep
        exact ⟨hm, hkeep⟩
    · rintro ⟨hm, hd⟩
      refine Or.inr ⟨hm, ?_⟩
      rw [hk, hd]
      rfl

/-- C8, witness: on concrete file contents, a listed identifier is
`$`-free, a scan with a duplicate and a template identifier is
duplicate-free, and the membership characterisation holds. -/
theorem C8_witness :
    startsWithDollar "report-weekly" = false
    ∧ (list_tasks_local_ids none ["id: 'b'\nid: '$x'\nid: 'a'\nid: 'b'"]).Nodup
    ∧ ("report-weekly" ∈ list_tasks_local_ids none ["id: 'report-weekly'\nid: '$tmp'"]
        ↔ "report-weekly" ∈ ["id: 'report-weekly'\nid: '$tmp'"].flatMap findIdMatches
          ∧ startsWithDollar "report-weekly" = false) :=
  ⟨(C8_local_scan_result ["id: 'report-weekly'"] none).1 "report-weekly" (by decide),
   (C8_local_scan_result ["id: 'b'\nid: '$x'\nid: 'a'\nid: 'b'"] none).2.1,
   (C8_local_scan_result ["id: 'report-weekly'\nid: '$tmp'"] none).2.2.2 "report-weekly"⟩

/-! ### Derivation of the remote task listing (C10) -/

/-- A fetched run entry shaped by the fields the task derivation reads: an
optional string `taskIdentifier`, an arbitrary `status` value, and an
optional string `updatedAt` (the shapes the remote API produces). -/
def mkRunObj : Option String × Json × Option String → Json
  | (tid, st, upd) =>
    .obj ((match tid with
            | some s => [("taskIdentifier", Json.str s)]
            | none => ([] : List (String × Json)))
      ++ [("status", st)]
      ++ (match upd with
            | some s => [("updatedAt", Json.str s)]
            | none => ([] : List (String × Json))))

theorem mkRunObj_get_tid (tid : Option String) (st : Json) (upd : Option String) :
    pyGet (mkRunObj (tid, st, upd)) "taskIdentifier" .null
      = .ok (match tid with | some s => .str s | none => .null) := by
  cases tid <;> cases upd <;> rfl

theorem mkRunObj_get_status (tid : Option String) (st : Json) (upd : Option String) :
    pyGet (mkRunObj (tid, st, upd)) "status" .null = .ok st := by
  cases tid <;> cases upd <;> rfl

theorem mkRunObj_get_upd (tid : Option String) (st : Json) (upd : Option String) :
    pyGet (mkRunObj (tid, st, upd)) "updatedAt" (.str "")
      = .ok (match upd with | some s => .str s | none => .str "") := by
  cases tid <;> cases upd <;> rfl

theorem pySliceTo_upd (upd : Option String) :
    pySliceTo (match upd with | some s => Json.str s | none => .str "") 10
      = .ok (.str (String.mk ((upd.getD "").data.take 10))) := by
  cases upd <;> rfl

theorem Json.beq_str (a b : String) : Json.beq (.str a) (.str b) = (a == b) := rfl

theorem any_beq_str (seen : List String) (s : String) :
    (seen.map Json.str).any (Json.beq (.str s)) = decide (s ∈ seen) := by
  induction seen with
  | nil => rfl
  | cons t rest ih =>
    simp only [List.map_cons, List.any_cons, ih, Json.beq_str, List.mem_cons]
    by_cases h : s = t
    · subst h
      simp
    · simp [h, beq_eq_false_iff_ne.mpr h]

/-- The derivation of the remote task listing, as the spec describes it
(stated for C10): scan the fetched runs in order, skip runs whose task
identifier is missing or empty, keep only the *first* run of each
identifier, and give that run's status and its date-truncated (first ten
characters) update timestamp to the listed entry. -/
def firstRunTasksSpec : List (Option String × Json × Option String) → List String → List Json
  | [], _seen => []
  | (tid, st, upd) :: rest, seen =>
    match tid with
    | none => firstRunTasksSpec rest seen
    | some s =>
      if s = "" ∨ s ∈ seen then firstRunTasksSpec rest seen
      else mkTaskEntry (.str s) st (.str (String.mk ((upd.getD "").data.take 10)))
          :: firstRunTasksSpec rest (seen ++ [s])

/-- The identifiers carried by a list of task entries. -/
def taskIdList (ts : List Json) : List String :=
  ts.filterMap (fun t =>
    match t with
    | .obj fs =>
      match pyLookup fs "id" with
      | some (.str s) => some s
      | _ => none
    | _ => none)

theorem taskIdList_cons (s : String) (st up : Json) (ts : List Json) :
    taskIdList (mkTaskEntry (.str s) st up :: ts) = s :: taskIdList ts := rfl

theorem pyResult_pure_bind {α β : Type} (v : α) (f : α → PyResult β) :
    ((pure v : PyResult α) >>= f) = f v := rfl

theorem firstRunTasksSpec_skip {s : String} (st : Json) (upd : Option String)
    (rest : List (Option String × Json × Option String)) (seen : List String)
    (h : s = "" ∨ s ∈ seen) :
    firstRunTasksSpec ((some s, st, upd) :: rest) seen = firstRunTasksSpec rest seen := by
  show (if s = "" ∨ s ∈ seen then firstRunTasksSpec rest seen else _) = _
  rw [if_pos h]

theorem firstRunTasksSpec_keep {s : String} (st : Json) (upd : Option String)
    (rest : List (Option String × Json × Option String)) (seen : List String)
    (h : ¬(s = "" ∨ s ∈ seen)) :
    firstRunTasksSpec ((some s, st, upd) :: rest) seen
      = mkTaskEntry (.str s) st (.str (String.mk ((upd.getD "").data.take 10)))
          :: firstRunTasksSpec rest (seen ++ [s]) := by
  show (if s = "" ∨ s ∈ seen then _ else _) = _
  rw [if_neg h]

theorem buildTasksGo_spec (rs : List (Option String × Json × Option String)) :
    ∀ (seen : List String) (tasks : List Json),
      buildTasksGo none (rs.map mkRunObj) (seen.map Json.str) tasks
        = .ok (tasks ++ firstRunTasksSpec rs seen) := by
  induction rs with
  | nil =>
    intro seen tasks
    simp [buildTasksGo, firstRunTasksSpec]
  | cons r rest ih =>
    obtain ⟨tid, st, upd⟩ := r
    intro seen tasks
    show (pyGet (mkRunObj (tid, st, upd)) "taskIdentifier" .null >>= fun task_id =>
        if !pyTruthy task_id || (seen.map Json.str).any (Json.beq task_id) then
          buildTasksGo none (rest.map mkRunObj) (seen.map Json.str) tasks
        else
          ((if optTruthy none then do
              let tl ← pyLowerJson task_id
              pure (!pySubstr (pyLower ((none : Option String).getD "")) tl)
            else pure false) >>= fun skip =>
          if skip then buildTasksGo none (rest.map mkRunObj) (seen.map Json.str) tasks
          else
            pyGet (mkRunObj (tid, st, upd)) "status" .null >>= fun status =>
            pyGet (mkRunObj (tid, st, upd)) "updatedAt" (.str "") >>= fun upd0 =>
            pySliceTo upd0 10 >>= fun updated =>
            buildTasksGo none (rest.map mkRunObj) (seen.map Json.str ++ [task_id])
              (tasks ++ [mkTaskEntry task_id status updated])))
      = .ok (tasks ++ firstRunTasksSpec ((tid, st, upd) :: rest) seen)
    rw [mkRunObj_get_tid, pyResult_ok_bind]
    cases tid with
    | none =>
      show buildTasksGo none (rest.map mkRunObj) (seen.map Json.str) tasks = _
      rw [ih seen tasks]
      rfl
    | some s =>
      by_cases hs : s = ""
      · subst hs
        show buildTasksGo none (rest.map mkRunObj) (seen.map Json.str) tasks = _
        rw [ih seen tasks]
        rfl
      · have htr : pyTruthy (.str s) = true := by
          simp [pyTruthy, hs]
        rw [show (!pyTruthy (Json.str s)
              || (seen.map Json.str).any (Json.beq (.str s)))
            = decide (s ∈ seen) by rw [htr, any_beq_str]; rfl]
        by_cases hmem : s ∈ seen
        · rw [if_pos (by rw [decide_eq_true hmem])]
          rw [ih seen tasks, firstRunTasksSpec_skip st upd rest seen (Or.inr hmem)]
        · rw [if_neg (by rw [decide_eq_false hmem]; exact Bool.noConfusion)]
          show (pure false >>= fun skip =>
              if skip then buildTasksGo none (rest.map mkRunObj) (seen.map Json.str) tasks
              else
                pyGet (mkRunObj (some s, st, upd)) "status" .null >>= fun status =>
                pyGet (mkRunObj (some s, st, upd)) "updatedAt" (.str "") >>= fun upd0 =>
                pySliceTo upd0 10 >>= fun updated =>
                buildTasksGo none (rest.map mkRunObj) (seen.map Json.str ++ [Json.str s])
                  (tasks ++ [mkTaskEntry (.str s) status updated]))
            = _

          rw [pyResult_pure_bind]
          show (pyGet (mkRunObj (some s, st, upd)) "status" .null >>= fun status =>
              pyGet (mkRunObj (some s, st, upd)) "updatedAt" (.str "") >>= fun upd0 =>
              pySliceTo upd0 10 >>= fun updated =>
              buildTasksGo none (rest.map mkRunObj) (seen.map Json.str ++ [Json.str s])
                (tasks ++ [mkTaskEntry (.str s) status updated]))
            = _
          rw [mkRunObj_get_status, pyResult_ok_bind, mkRunObj_get_upd, pyResult_ok_bind,
            pySliceTo_upd, pyResult_ok_bind]
          rw [show seen.map Json.str ++ [Json.str s] = (seen ++ [s]).map Json.str by
            rw [List.map_append]; rfl]
          rw [ih (seen ++ [s])
            (tasks ++ [mkTaskEntry (.str s) st (.str (String.mk ((upd.getD "").data.take 10)))])]
          rw [firstRunTasksSpec_keep st upd rest seen (by push_neg; exact ⟨hs, hmem⟩)]
          rw [List.append_assoc]
          rfl

theorem taskIdList_spec_mem (rs : List (Option String × Json × Option String)) :
    ∀ (seen : List String) (s : String),
      s ∈ taskIdList (firstRunTasksSpec rs seen) ↔
        s ∉ seen ∧ s ≠ "" ∧ some s ∈ rs.map (fun r => r.1) := by
  induction rs with
  | nil =>
    intro seen s
    simp [firstRunTasksSpec, taskIdList]
  | cons r rest ih =>
    obtain ⟨tid, st, upd⟩ := r
    intro seen s
    cases tid with
    | none =>
      show s ∈ taskIdList (firstRunTasksSpec rest seen) ↔ _
      rw [ih seen s]
      simp
    | some t =>
      show s ∈ taskIdList (if t = "" ∨ t ∈ seen then firstRunTasksSpec rest seen
          else mkTaskEntry (.str t) st (.str (String.mk ((upd.getD "").data.take 10)))
            :: firstRunTasksSpec rest (seen ++ [t])) ↔ _
      by_cases hc : t = "" ∨ t ∈ seen
      · rw [if_pos hc, ih seen s]
        simp only [List.map_cons, List.mem_cons, Option.some.injEq]
        constructor
        · rintro ⟨h1, h2, h3⟩
          exact ⟨h1, h2, Or.inr h3⟩
        · rintro ⟨h1, h2, h3⟩
          rcases h3 with rfl | h3
          · rcases hc with hc | hc
            · exact absurd hc h2
            · exact absurd hc h1
          · exact ⟨h1, h2, h3⟩
      · rw [if_neg hc, taskIdList_cons]
        push_neg at hc
        obtain ⟨ht1, ht2⟩ := hc
        rw [List.mem_cons, ih (seen ++ [t]) s]
        simp only [List.map_cons, List.mem_cons, Option.some.injEq, List.mem_append,
          List.mem_singleton, not_or]
        constructor
        · rintro (rfl | ⟨⟨h1, _⟩, h2, h3⟩)
          · exact ⟨ht2, ht1, Or.inl rfl⟩
          · exact ⟨h1, h2, Or.inr h3⟩
        · rintro ⟨h1, h2, h3⟩
          rcases h3 with rfl | h3
          · exact Or.inl rfl
          · by_cases hst : s = t
            · exact Or.inl hst
            · exact Or.inr ⟨⟨h1, hst, List.not_mem_nil s⟩, h2, h3⟩

theorem taskIdList_spec_nodup (rs : List (Option String × Json × Option String)) :
    ∀ seen : List String, (taskIdList (firstRunTasksSpec rs seen)).Nodup := by
  induction rs with
  | nil =>
    intro seen
    simp [firstRunTasksSpec, taskIdList]
  | cons r rest ih =>
    obtain ⟨tid, st, upd⟩ := r
    intro seen
    cases tid with
    | none => exact ih seen
    | some t =>
      show (taskIdList (if t = "" ∨ t ∈ seen then firstRunTasksSpec rest seen
          else mkTaskEntry (.str t) st (.str (String.mk ((upd.getD "").data.take 10)))
            :: firstRunTasksSpec rest (seen ++ [t]))).Nodup
      by_cases hc : t = "" ∨ t ∈ seen
      · rw [if_pos hc]
        exact ih seen
      · rw [if_neg hc, taskIdList_cons]
        refine List.Nodup.cons ?_ (ih (seen ++ [t]))
        intro hmem
        rcases (taskIdList_spec_mem rest (seen ++ [t]) t).mp hmem with ⟨h1, _, _⟩
        exact h1 (List.mem_append.mpr (Or.inr (List.mem_singleton.mpr rfl)))

/-- C10: the remote task listing is derived from the recent-runs fetch:
for every fetched run sequence (entries carrying an optional string task
identifier, a status, and an optional string update timestamp), the
resulting task list equals the first-occurrence derivation — each distinct
identifier exactly once, in order of first occurrence, carrying the
first-occurring run's status and date-truncated (ten-character) update
timestamp; runs with a missing or empty identifier are skipped; and an
identifier appears iff some fetched run carries it, so a task with no
recent run never appears. -/
theorem C10_tasks_derived_from_runs (rs : List (Option String × Json × Option String)) :
    buildTasksFromRuns none (rs.map mkRunObj) = .ok (firstRunTasksSpec rs [])
    ∧ (taskIdList (firstRunTasksSpec rs [])).Nodup
    ∧ (∀ s : String, s ∈ taskIdList (firstRunTasksSpec rs []) ↔
        s ≠ "" ∧ some s ∈ rs.map (fun r => r.1)) := by
  refine ⟨?_, taskIdList_spec_nodup rs [], ?_⟩
  · have h := buildTasksGo_spec rs [] []
    show buildTasksGo none (rs.map mkRunObj) [] [] = _
    have h0 : (([] : List String).map Json.str) = ([] : List Json) := rfl
    rw [h0] at h
    rw [h]
    rfl
  · intro s
    rw [taskIdList_spec_mem rs [] s]
    simp

end Trigger
